import Mathlib

/-!
# DistKLDivCriterion (THNN)

A shallow embedding of `aten/src/THNN/generic/DistKLDivCriterion.c`: the forward kernel
`DistKLDivCriterion_updateOutput` and the backward kernel `DistKLDivCriterion_updateGradInput`.

The element type `real` of the generic file is a type parameter of the kernels, which use
only its operations (`0`, `1`, `+`, `-`, `*`, `/`, the conversion of an integer, `<`), and
the C library function `log` is a parameter as well.  A theorem says which arithmetic it is
about: every arithmetic, exact arithmetic (a linearly ordered field, such as the reals), or
the `double` arithmetic of `Double`.  A tensor is seen through its logical (row-major)
indices.
-/

namespace THNN

/-- The two kinds of failure a kernel call can raise. -/
inductive THError where
  | ShapeMismatch
  | DimensionalityError
  deriving DecidableEq

/-- Modelled from the spec: the tensor abstraction `THTensor` is not part of the kernel file.
A tensor has a shape (`size`, the ordered dimension sizes) and element values; `data i` is
the value at logical (row-major) index `i`, and the values at indices past the element
count stand for whatever the backing buffer holds there.  Strides are not represented. -/
@[ext]
structure THTensor (real : Type) where
  size : List Nat
  data : Nat → real

/-- The state in which a kernel call leaves the tensor it writes (`output`, respectively
`gradInput`), together with the error it raised, if any. -/
structure Outcome (real : Type) where
  error : Option THError
  tensor : THTensor real

/-- Modelled from the spec: the build flag `_OPENMP` and the OpenMP runtime are outside the
kernel file.  `openmp` says whether the kernel was compiled with `_OPENMP`, `omp_in_parallel`
is the answer of `omp_in_parallel()`, `omp_num_threads` the size of the worker pool. -/
structure OMPEnv where
  openmp : Bool
  omp_in_parallel : Bool
  omp_num_threads : Nat

/-- The constant `THNN_OMP_OVERHEAD_THRESHOLD` defined at the head of the file. -/
def THNN_OMP_OVERHEAD_THRESHOLD : Nat := 10

section Tensor

variable {real : Type}

/-- Modelled from the spec: `THTensor_(nElement)`, the element count, is the product of the
dimension sizes. -/
def THTensor_nElement (self : THTensor real) : Nat := self.size.prod

/-- Modelled from the spec: `THTensor_(resizeAs)` gives `self` the shape of `src`; the
buffer behind it is kept. -/
def THTensor_resizeAs (self src : THTensor real) : THTensor real :=
  { self with size := src.size }

/-- Modelled from the spec: `THTensor_(resize1d)` makes `self` one-dimensional of the given
size; the buffer behind it is kept. -/
def THTensor_resize1d (self : THTensor real) (size0 : Nat) : THTensor real :=
  { self with size := [size0] }

/-- The tensor `self` with the element at logical index `i` replaced by `value`: a write
through an element pointer such as `*output_data = value`. -/
def writeAt (self : THTensor real) (i : Nat) (value : real) : THTensor real :=
  { self with data := Function.update self.data i value }

/-- Modelled from the spec: `THTensor_(set1d)` writes one element of a one-dimensional
tensor at the given index. -/
def THTensor_set1d (self : THTensor real) (x0 : Nat) (value : real) : THTensor real :=
  writeAt self x0 value

/-- Modelled from the spec: `THTensor_fastGet1d` reads one element at the given index. -/
def THTensor_fastGet1d (self : THTensor real) (x0 : Nat) : real := self.data x0

/-- Modelled from the spec: the macro `THNN_CHECK_NELEMENT(I1, I2)` raises a shape-mismatch
failure when the two element counts differ.  `none` means the check passed. -/
def THNN_CHECK_NELEMENT (I1 I2 : THTensor real) : Option THError :=
  if THTensor_nElement I1 ≠ THTensor_nElement I2 then some THError.ShapeMismatch else none

/-- Modelled from the spec: the macro `THNN_CHECK_DIM_SIZE(T, DIM, DIM_SIZE, SIZE)`, called
by the kernel as `(gradOutput, 1, 0, 1)`, raises a dimensionality failure when the tensor,
expected to be a single-element container, has a different element count.  The spec words
the check by element count only, so the three numbers of the call are not consulted. -/
def THNN_CHECK_DIM_SIZE (T : THTensor real) (_DIM _DIM_SIZE _SIZE : Nat) : Option THError :=
  if THTensor_nElement T ≠ 1 then some THError.DimensionalityError else none

/-- The three tensors a ternary traversal walks in lockstep. -/
abbrev Triple (real : Type) := THTensor real × THTensor real × THTensor real

/-- One visit of a ternary traversal: the code block sees the three elements at logical
index `i` (through `*T1_data`, `*T2_data`, `*T3_data`) and leaves three values there. -/
def apply3Step (CODE : real → real → real → real × real × real) (s : Triple real) (i : Nat) :
    Triple real :=
  let r := CODE (s.1.data i) (s.2.1.data i) (s.2.2.data i)
  (writeAt s.1 i r.1, writeAt s.2.1 i r.2.1, writeAt s.2.2 i r.2.2)

/-- A ternary traversal of the logical indices `start, ..., start + len - 1`, in order. -/
def apply3Range (CODE : real → real → real → real × real × real) (start len : Nat)
    (s : Triple real) : Triple real :=
  (List.range' start len).foldl (apply3Step CODE) s

/-- Modelled from the spec: the macro `TH_TENSOR_APPLY3` (the sequential `mapTernary`) visits
every logical index below the element count and runs the code block on the three elements
found there. -/
def TH_TENSOR_APPLY3 (T1 T2 T3 : THTensor real)
    (CODE : real → real → real → real × real × real) : Triple real :=
  apply3Range CODE 0 (THTensor_nElement T1) (T1, T2, T3)

/-- The contiguous chunk `(start, length)` of `SIZE` indices owned by worker `tid` out of
`numThreads`; the last worker also takes the remainder. -/
def ompChunk (SIZE numThreads tid : Nat) : Nat × Nat :=
  (tid * (SIZE / numThreads),
    if tid + 1 = numThreads then SIZE - tid * (SIZE / numThreads) else SIZE / numThreads)

/-- The tensor `dst` with the slice `start, ..., start + len - 1` taken from `src`. -/
def mergeSlice (dst src : THTensor real) (start len : Nat) : THTensor real :=
  { dst with data := fun j => if start ≤ j ∧ j < start + len then src.data j else dst.data j }

/-- The fan-out of a ternary traversal: every worker maps its own chunk independently,
reading the tensors as they were on entry, and owns the slice it writes. -/
def apply3Workers (CODE : real → real → real → real × real × real) (SIZE numThreads : Nat)
    (s : Triple real) : Triple real :=
  (List.range numThreads).foldl
    (fun acc tid =>
      let c := ompChunk SIZE numThreads tid
      let r := apply3Range CODE c.1 c.2 s
      (mergeSlice acc.1 r.1 c.1 c.2, mergeSlice acc.2.1 r.2.1 c.1 c.2,
        mergeSlice acc.2.2 r.2.2 c.1 c.2))
    s

/-- Modelled from the spec: the macro `TH_TENSOR_APPLY3_OMP` (the size-gated `mapTernary`).
Below the overhead threshold, or without a worker to fan out to, it walks the indices
sequentially; otherwise the index range is split into contiguous chunks, one per worker.
The contiguity flags of the call only select an addressing path and are not represented. -/
def TH_TENSOR_APPLY3_OMP (env : OMPEnv) (SIZE : Nat) (T1 T2 T3 : THTensor real)
    (CODE : real → real → real → real × real × real) (OMP_THRESHOLD : Nat) : Triple real :=
  if SIZE < OMP_THRESHOLD ∨ env.omp_num_threads = 0 then
    apply3Range CODE 0 SIZE (T1, T2, T3)
  else
    apply3Workers CODE SIZE env.omp_num_threads (T1, T2, T3)

/-- Modelled from the spec: the macro `TH_TENSOR_APPLY2`, used as `mapBinaryReduce`: it
visits every logical index below the element count, in order, and runs the code block on
the two elements found there; the block updates a local variable of the caller. -/
def TH_TENSOR_APPLY2 {σ : Type} (T1 T2 : THTensor real) (CODE : σ → real → real → σ)
    (local0 : σ) : σ :=
  (List.range (THTensor_nElement T1)).foldl (fun acc i => CODE acc (T1.data i) (T2.data i))
    local0

/-- The elementwise description of a ternary traversal of the logical indices `lo ≤ j < hi`:
at each of them the three elements are replaced by what the code block leaves there. -/
def map3Range (CODE : real → real → real → real × real × real) (lo hi : Nat)
    (s : Triple real) : Triple real :=
  ({ s.1 with data := fun j =>
      if lo ≤ j ∧ j < hi then (CODE (s.1.data j) (s.2.1.data j) (s.2.2.data j)).1
      else s.1.data j },
   { s.2.1 with data := fun j =>
      if lo ≤ j ∧ j < hi then (CODE (s.1.data j) (s.2.1.data j) (s.2.2.data j)).2.1
      else s.2.1.data j },
   { s.2.2 with data := fun j =>
      if lo ≤ j ∧ j < hi then (CODE (s.1.data j) (s.2.1.data j) (s.2.2.data j)).2.2
      else s.2.2.data j })

end Tensor

section Kernel

variable {real : Type} [Zero real] [One real] [Add real] [Sub real] [Neg real] [Mul real]
  [Div real] [NatCast real] [LT real] [DecidableRel (fun a b : real => a < b)]

/-- The forward kernel `THNN_(DistKLDivCriterion_updateOutput)`. -/
def DistKLDivCriterion_updateOutput (env : OMPEnv) (log : real → real)
    (input target output : THTensor real) (sizeAverage reduce : Bool) : Outcome real :=
  match THNN_CHECK_NELEMENT input target with
  | some e => ⟨some e, output⟩
  | none =>
    if !reduce then
      let output := THTensor_resizeAs output input
      let CODE := fun (input_data target_data _output_data : real) =>
        (input_data, target_data,
          if target_data > 0 then target_data * (log target_data - input_data) else 0)
      let st : Bool × THTensor real :=
        if env.openmp then
          if env.omp_in_parallel then (true, output)
          else
            let input_size := THTensor_nElement input
            (false, (TH_TENSOR_APPLY3_OMP env input_size input target output CODE
              THNN_OMP_OVERHEAD_THRESHOLD).2.2)
        else (true, output)
      let serial_path := st.1
      let output := st.2
      let output := if serial_path then (TH_TENSOR_APPLY3 input target output CODE).2.2
        else output
      ⟨none, output⟩
    else
      let output := THTensor_resize1d output 1
      let sum : real := 0
      let sum := TH_TENSOR_APPLY2 input target
        (fun (sum input_data target_data : real) =>
          sum + (if target_data > 0 then target_data * (log target_data - input_data) else 0))
        sum
      let sum := if sizeAverage then sum / (THTensor_nElement input : real) else sum
      ⟨none, THTensor_set1d output 0 sum⟩

/-- The backward kernel `THNN_(DistKLDivCriterion_updateGradInput)`. -/
def DistKLDivCriterion_updateGradInput (env : OMPEnv)
    (input target gradOutput gradInput : THTensor real) (sizeAverage reduce : Bool) :
    Outcome real :=
  match THNN_CHECK_NELEMENT input target with
  | some e => ⟨some e, gradInput⟩
  | none =>
    let gradInput := THTensor_resizeAs gradInput input
    if !reduce then
      match THNN_CHECK_NELEMENT input gradOutput with
      | some e => ⟨some e, gradInput⟩
      | none =>
        let CODE := fun (_gradInput_data gradOutput_data target_data : real) =>
          ((if target_data > 0 then (-target_data) * gradOutput_data else 0),
            gradOutput_data, target_data)
        let st : Bool × THTensor real :=
          if env.openmp then
            if env.omp_in_parallel then (true, gradInput)
            else
              let gradInput_size := THTensor_nElement gradInput
              (false, (TH_TENSOR_APPLY3_OMP env gradInput_size gradInput gradOutput target CODE
                THNN_OMP_OVERHEAD_THRESHOLD).1)
          else (true, gradInput)
        let serial_path := st.1
        let gradInput := st.2
        let gradInput := if serial_path then
            (TH_TENSOR_APPLY3 gradInput gradOutput target CODE).1
          else gradInput
        ⟨none, gradInput⟩
    else
      match THNN_CHECK_DIM_SIZE gradOutput 1 0 1 with
      | some e => ⟨some e, gradInput⟩
      | none =>
        let norm : real := if sizeAverage then 1 / (THTensor_nElement input : real) else 1
        let CODE := fun (_gradInput_data input_data target_data : real) =>
          ((if target_data > 0 then norm * (-target_data) * THTensor_fastGet1d gradOutput 0
            else 0),
            input_data, target_data)
        let st : Bool × THTensor real :=
          if env.openmp then
            if env.omp_in_parallel then (true, gradInput)
            else
              let gradInput_size := THTensor_nElement gradInput
              (false, (TH_TENSOR_APPLY3_OMP env gradInput_size gradInput input target CODE
                THNN_OMP_OVERHEAD_THRESHOLD).1)
          else (true, gradInput)
        let serial_path := st.1
        let gradInput := st.2
        let gradInput := if serial_path then
            (TH_TENSOR_APPLY3 gradInput input target CODE).1
          else gradInput
        ⟨none, gradInput⟩

end Kernel

/-- The C type `double` (IEEE 754 binary64), one of the element types `real` stands for when
the generic file is instantiated: a NaN, the two infinities, and the finite values
`(-1)^neg * m * 2^e`, kept in the form the format stores them: zero is `m = 0, e = 0`, a
normal number has `2^52 ≤ m < 2^53` and `-1074 ≤ e ≤ 971`, a subnormal one has `m < 2^52`
and `e = -1074`. -/
inductive Double where
  | nan : Double
  | inf (neg : Bool) : Double
  | fin (neg : Bool) (m : Nat) (e : Int) : Double
  deriving DecidableEq

namespace Double

/-- The position of the leading binary digit of `n`, by halving at most `fuel` times. -/
def log2Fuel : Nat → Nat → Nat
  | 0, _ => 0
  | fuel + 1, n => if 2 ≤ n then log2Fuel fuel (n / 2) + 1 else 0

/-- The integer part of the binary logarithm of `n` (0 for `n = 0`). -/
def ilog2 (n : Nat) : Nat := log2Fuel n n

/-- Rounding to nearest, ties to even: the `double` nearest to the exact value
`(-1)^neg * (N / D) * 2^e` (with `D > 0`).  The quotient is taken with at least 55 binary
digits and a sticky remainder, then cut to 53 digits, or to the subnormal grid at `2^-1074`;
a result of `2^1024` or more is an infinity. -/
def round (neg : Bool) (N D : Nat) (e : Int) : Double :=
  if N = 0 then fin neg 0 0
  else
    let k : Nat := (55 + ilog2 D) - ilog2 N
    let Q : Nat := (N * 2 ^ k) / D
    let sticky : Bool := decide ((N * 2 ^ k) % D ≠ 0)
    let L : Nat := ilog2 Q + 1
    let e0 : Int := e - (k : Int)
    let drop : Nat := (max ((L : Int) - 53) (-1074 - e0)).toNat
    let hi : Nat := Q / 2 ^ drop
    let lo : Nat := Q % 2 ^ drop
    let half : Nat := 2 ^ (drop - 1)
    let up : Bool :=
      decide (half < lo) || (decide (lo = half) && (sticky || decide (hi % 2 = 1)))
    let m : Nat := if up then hi + 1 else hi
    let er : Int := e0 + (drop : Int)
    if m = 0 then fin neg 0 0
    else if m = 2 ^ 53 then (if er + 1 > 971 then inf neg else fin neg (2 ^ 52) (er + 1))
    else if er > 971 then inf neg
    else fin neg m er

/-- The finite value `(-1)^neg * m * 2^e` as an integer multiple of `2^g`, for `g ≤ e`. -/
def signed (neg : Bool) (m : Nat) (e g : Int) : Int :=
  if neg then -((m * 2 ^ (e - g).toNat : Nat) : Int) else ((m * 2 ^ (e - g).toNat : Nat) : Int)

/-- Unary minus: the sign is flipped. -/
def neg : Double → Double
  | nan => nan
  | inf s => inf (!s)
  | fin s m e => fin (!s) m e

/-- The product, correctly rounded; `0 * inf` is a NaN. -/
def mul : Double → Double → Double
  | nan, _ => nan
  | _, nan => nan
  | inf s, inf t => inf (xor s t)
  | inf s, fin t n _ => if n = 0 then nan else inf (xor s t)
  | fin s m _, inf t => if m = 0 then nan else inf (xor s t)
  | fin s m e, fin t n f => round (xor s t) (m * n) 1 (e + f)

/-- The quotient, correctly rounded; `0 / 0` and `inf / inf` are NaNs, a non-zero value
over zero is an infinity. -/
def div : Double → Double → Double
  | nan, _ => nan
  | _, nan => nan
  | inf _, inf _ => nan
  | inf s, fin t _ _ => inf (xor s t)
  | fin s _ _, inf t => fin (xor s t) 0 0
  | fin s m e, fin t n f =>
    if n = 0 then (if m = 0 then nan else inf (xor s t))
    else round (xor s t) m n (e - f)

/-- The sum, correctly rounded; `inf + (-inf)` is a NaN, an exact zero sum is `+0` unless
both terms are `-0`. -/
def add : Double → Double → Double
  | nan, _ => nan
  | _, nan => nan
  | inf s, inf t => if s = t then inf s else nan
  | inf s, fin _ _ _ => inf s
  | fin _ _ _, inf t => inf t
  | fin s m e, fin t n f =>
    let c : Int := signed s m e (min e f) + signed t n f (min e f)
    if c = 0 then fin (s && t) 0 0
    else round (decide (c < 0)) c.natAbs 1 (min e f)

/-- The difference `a - b`, that is `a + (-b)`. -/
def sub (a b : Double) : Double := add a (neg b)

/-- The comparison `a < b`; false as soon as one side is a NaN. -/
def blt : Double → Double → Bool
  | nan, _ => false
  | _, nan => false
  | inf s, inf t => s && !t
  | inf s, fin _ _ _ => s
  | fin _ _ _, inf t => !t
  | fin s m e, fin t n f => decide (signed s m e (min e f) < signed t n f (min e f))

/-- The comparison `a <= b`; false as soon as one side is a NaN. -/
def ble : Double → Double → Bool
  | nan, _ => false
  | _, nan => false
  | inf s, inf t => s || !t
  | inf s, fin _ _ _ => s
  | fin _ _ _, inf t => !t
  | fin s m e, fin t n f => decide (signed s m e (min e f) ≤ signed t n f (min e f))

/-- The conversion of an integer to `double`, as in `(real)THTensor_(nElement)(input)`. -/
def ofNat (n : Nat) : Double := round false n 1 0

instance : Zero Double := ⟨fin false 0 0⟩

instance : One Double := ⟨fin false (2 ^ 52) (-52)⟩

instance : Add Double := ⟨add⟩

instance : Sub Double := ⟨sub⟩

instance : Neg Double := ⟨neg⟩

instance : Mul Double := ⟨mul⟩

instance : Div Double := ⟨div⟩

instance : NatCast Double := ⟨ofNat⟩

instance : LT Double := ⟨fun a b => blt a b = true⟩

instance : LE Double := ⟨fun a b => ble a b = true⟩

instance : DecidableRel (fun a b : Double => a < b) :=
  fun a b => inferInstanceAs (Decidable (blt a b = true))

instance : DecidableRel (fun a b : Double => a ≤ b) :=
  fun a b => inferInstanceAs (Decidable (ble a b = true))

/-- The largest finite `double`, `(2^53 - 1) * 2^971`. -/
def maxFinite : Double := fin false (2 ^ 53 - 1) 971

/-- The values of the C library `log` at the arguments the examples use: `log(1) = 0`,
`log(4) = 6243314768165359 * 2^-52` and `log(+inf) = +inf`; at any other argument a
placeholder. -/
def log (x : Double) : Double :=
  if x = ofNat 1 then fin false 0 0
  else if x = ofNat 4 then fin false 6243314768165359 (-52)
  else if x = inf false then inf false
  else nan

end Double

section Examples

/-- An OpenMP build, called outside a parallel region, with four workers. -/
def exEnv : OMPEnv := ⟨true, false, 4⟩

/-- A rational stand-in for `log` on the concrete inputs. -/
def exLog : ℚ → ℚ := fun x => x - 1

/-- The input `[0, 0, 0]`. -/
def exInput : THTensor ℚ := ⟨[3], fun _ => 0⟩

/-- The target `[1, 0, 0]`. -/
def exTarget : THTensor ℚ := ⟨[3], fun i => if i = 0 then 1 else 0⟩

/-- A pre-populated tensor `[7, 7]`, used as the tensor a call writes. -/
def exOutput : THTensor ℚ := ⟨[2], fun _ => 7⟩

/-- A two-element tensor `[5, 5]`. -/
def exShort : THTensor ℚ := ⟨[2], fun _ => 5⟩

/-- A three-element upstream gradient `[1, 1, 1]`. -/
def exGradOutput3 : THTensor ℚ := ⟨[3], fun _ => 1⟩

/-- A single-element upstream gradient `[2]`. -/
def exGradOutput1 : THTensor ℚ := ⟨[1], fun _ => 2⟩

/-- The target `[1, 0, 0]` laid out with shape `1 x 3`. -/
def exTargetRow : THTensor ℚ := ⟨[1, 3], fun i => if i = 0 then 1 else 0⟩

/-- A single-element upstream gradient of rank two, shape `1 x 1`. -/
def exGradOutput11 : THTensor ℚ := ⟨[1, 1], fun _ => 2⟩

/-- The three-element upstream gradient `[2, 2, 2]`. -/
def exScaled : THTensor ℚ := ⟨[3], fun _ => 2⟩

/-- The input `[0, 0, 0]` over the reals. -/
def exInputR : THTensor ℝ := ⟨[3], fun _ => 0⟩

/-- The target `[1, 0, 0]` over the reals. -/
def exTargetR : THTensor ℝ := ⟨[3], fun i => if i = 0 then 1 else 0⟩

/-- A pre-populated tensor `[7, 7]` over the reals. -/
def exOutputR : THTensor ℝ := ⟨[2], fun _ => 7⟩

/-- The upstream gradient `[1]` over the reals. -/
def exGradOneR : THTensor ℝ := ⟨[1], fun _ => 1⟩

/-- The upstream gradient `[1, 1, 1]` over the reals. -/
def exOnesR : THTensor ℝ := ⟨[3], fun _ => 1⟩

/-- A build without OpenMP: the kernels take the serial path. -/
def exEnvSerial : OMPEnv := ⟨false, false, 0⟩

/-- An OpenMP build, called outside a parallel region, with five workers. -/
def exEnv5 : OMPEnv := ⟨true, false, 5⟩

/-- A twelve-element input of shape `3 x 4`, holding `0, 1, ..., 11`. -/
def exInput12 : THTensor ℚ := ⟨[3, 4], fun i => (i : ℚ)⟩

/-- A twelve-element target of shape `12`, holding `-3, -2, ..., 8`. -/
def exTarget12 : THTensor ℚ := ⟨[12], fun i => (i : ℚ) - 3⟩

/-- The input `[0, 1, 2]`: the shape of `exInput`, other values. -/
def exInputUp : THTensor ℚ := ⟨[3], fun i => (i : ℚ)⟩

/-- The `double` input `[0, 0, 0]`. -/
def dblZeros3 : THTensor Double := ⟨[3], fun _ => 0⟩

/-- The `double` target `[3, 3, 3]`. -/
def dblThrees : THTensor Double := ⟨[3], fun _ => Double.ofNat 3⟩

/-- The `double` upstream gradient `[7]`. -/
def dblSeven : THTensor Double := ⟨[1], fun _ => Double.ofNat 7⟩

/-- The `double` upstream gradient `[1, 1, 1]`. -/
def dblOnes3 : THTensor Double := ⟨[3], fun _ => 1⟩

/-- The `double` upstream gradient of three copies of `(1 / 3) * 7`, computed in `double`. -/
def dblScaled3 : THTensor Double := ⟨[3], fun _ => 1 / Double.ofNat 3 * Double.ofNat 7⟩

/-- A pre-populated `double` tensor `[0, 0]`, used as the tensor a call writes. -/
def dblOut : THTensor Double := ⟨[2], fun _ => 0⟩

/-- The three-element upstream gradient `[2/3, 2/3, 2/3]`. -/
def exScaledAvg : THTensor ℚ := ⟨[3], fun _ => 2 / 3⟩

/-- The one-element `double` input `[0]`. -/
def dblIn1 : THTensor Double := ⟨[1], fun _ => 0⟩

/-- The one-element `double` target `[3]`. -/
def dblT3 : THTensor Double := ⟨[1], fun _ => Double.ofNat 3⟩

/-- The one-element `double` target `[+inf]`. -/
def dblTinf : THTensor Double := ⟨[1], fun _ => Double.inf false⟩

/-- The one-element `double` upstream gradient `[2^53]`. -/
def dblG1 : THTensor Double := ⟨[1], fun _ => Double.ofNat 9007199254740992⟩

/-- The one-element `double` upstream gradient `[1]`. -/
def dblG2 : THTensor Double := ⟨[1], fun _ => 1⟩

/-- The empty `double` tensor: shape `0`, no element. -/
def dblEmpty : THTensor Double := ⟨[0], fun _ => 0⟩

/-- The `double` target `[4, 4]`. -/
def dblFours : THTensor Double := ⟨[2], fun _ => Double.ofNat 4⟩

/-- The `double` input `[-M, M]`, with `M` the largest finite `double`. -/
def dblLow : THTensor Double :=
  ⟨[2], fun i => if i = 0 then -Double.maxFinite else Double.maxFinite⟩

/-- The `double` input `[M, M]`, with `M` the largest finite `double`. -/
def dblHigh : THTensor Double := ⟨[2], fun _ => Double.maxFinite⟩

/-- The `double` target `[4, 0]`. -/
def dblFourZero : THTensor Double := ⟨[2], fun i => if i = 0 then Double.ofNat 4 else 0⟩

/-- The `double` input `[M, -M]`, with `M` the largest finite `double`. -/
def dblHighLow : THTensor Double :=
  ⟨[2], fun i => if i = 0 then Double.maxFinite else -Double.maxFinite⟩

end Examples

section Traversal

variable {real : Type}

theorem apply3Range_succ (CODE : real → real → real → real × real × real) (start n : Nat)
    (s : Triple real) :
    apply3Range CODE start (n + 1) s
      = apply3Step CODE (apply3Range CODE start n s) (start + n) := by
  simp [apply3Range, List.range'_concat, List.foldl_append]

theorem apply3Range_eq_map3Range (CODE : real → real → real → real × real × real)
    (start len : Nat) (s : Triple real) :
    apply3Range CODE start len s = map3Range CODE start (start + len) s := by
  induction len with
  | zero =>
    refine Prod.ext ?_ (Prod.ext ?_ ?_) <;> ext j <;>
      simp only [apply3Range, map3Range, List.range'_zero, List.foldl_nil, Nat.add_zero] <;>
      rw [if_neg (by omega)]
  | succ n ih =>
    rw [apply3Range_succ, ih]
    refine Prod.ext ?_ (Prod.ext ?_ ?_) <;> ext j <;>
      simp only [apply3Step, map3Range, writeAt, Function.update_apply] <;>
      by_cases hj : j = start + n <;> simp [hj] <;>
      exact if_congr (by omega) rfl rfl

theorem map3Range_empty (CODE : real → real → real → real × real × real) (lo : Nat)
    (s : Triple real) : map3Range CODE lo lo s = s := by
  refine Prod.ext ?_ (Prod.ext ?_ ?_) <;> ext j <;> simp only [map3Range] <;>
    rw [if_neg (by omega)]

theorem mergeSlice_map3Range (CODE : real → real → real → real × real × real) (b len : Nat)
    (s : Triple real) :
    (mergeSlice (map3Range CODE 0 b s).1 (map3Range CODE b (b + len) s).1 b len,
      mergeSlice (map3Range CODE 0 b s).2.1 (map3Range CODE b (b + len) s).2.1 b len,
      mergeSlice (map3Range CODE 0 b s).2.2 (map3Range CODE b (b + len) s).2.2 b len)
      = map3Range CODE 0 (b + len) s := by
  refine Prod.ext ?_ (Prod.ext ?_ ?_) <;> ext j <;> simp only [mergeSlice, map3Range] <;>
    split_ifs <;> first | rfl | omega

theorem chunk_start_le (SIZE T k : Nat) (hk : k < T) : k * (SIZE / T) ≤ SIZE :=
  le_trans (Nat.mul_le_mul_right _ (Nat.le_of_lt hk)) (Nat.mul_div_le SIZE T)

theorem apply3Workers_upto (CODE : real → real → real → real × real × real)
    (SIZE T : Nat) (s : Triple real) (k : Nat) (hk : k ≤ T) (hT : 0 < T) :
    (List.range k).foldl
      (fun acc tid =>
        let c := ompChunk SIZE T tid
        let r := apply3Range CODE c.1 c.2 s
        (mergeSlice acc.1 r.1 c.1 c.2, mergeSlice acc.2.1 r.2.1 c.1 c.2,
          mergeSlice acc.2.2 r.2.2 c.1 c.2))
      s
      = map3Range CODE 0 (if k = T then SIZE else k * (SIZE / T)) s := by
  induction k with
  | zero =>
    have h0 : ¬ (0 = T) := by omega
    simp only [List.range_zero, List.foldl_nil, if_neg h0, Nat.zero_mul, map3Range_empty]
  | succ k ih =>
    have hkT : ¬ (k = T) := by omega
    have hle := chunk_start_le SIZE T k (by omega)
    rw [List.range_succ, List.foldl_append, ih (by omega), if_neg hkT]
    simp only [List.foldl_cons, List.foldl_nil, apply3Range_eq_map3Range, ompChunk]
    rw [mergeSlice_map3Range]
    congr 1
    by_cases h : k + 1 = T
    · rw [if_pos h, if_pos h]; omega
    · rw [if_neg h, if_neg h, Nat.succ_mul]

theorem apply3Workers_eq_map3Range (CODE : real → real → real → real × real × real)
    (SIZE T : Nat) (s : Triple real) (hT : 0 < T) :
    apply3Workers CODE SIZE T s = map3Range CODE 0 SIZE s := by
  have h := apply3Workers_upto CODE SIZE T s T (le_refl T) hT
  rw [if_pos rfl] at h
  exact h

theorem TH_TENSOR_APPLY3_OMP_eq (env : OMPEnv) (T1 T2 T3 : THTensor real)
    (CODE : real → real → real → real × real × real) (threshold : Nat) :
    TH_TENSOR_APPLY3_OMP env (THTensor_nElement T1) T1 T2 T3 CODE threshold
      = TH_TENSOR_APPLY3 T1 T2 T3 CODE := by
  unfold TH_TENSOR_APPLY3_OMP TH_TENSOR_APPLY3
  split_ifs with h
  · rfl
  · rw [apply3Workers_eq_map3Range _ _ _ _ (by omega), apply3Range_eq_map3Range, Nat.zero_add]

theorem TH_TENSOR_APPLY3_eq_map3Range (T1 T2 T3 : THTensor real)
    (CODE : real → real → real → real × real × real) :
    TH_TENSOR_APPLY3 T1 T2 T3 CODE = map3Range CODE 0 (THTensor_nElement T1) (T1, T2, T3) := by
  rw [TH_TENSOR_APPLY3, apply3Range_eq_map3Range, Nat.zero_add]

theorem foldl_add_congr [Add real] (f g : Nat → real) (z : real) (n : Nat)
    (h : ∀ i, i < n → f i = g i) :
    (List.range n).foldl (fun acc i => acc + f i) z
      = (List.range n).foldl (fun acc i => acc + g i) z := by
  induction n with
  | zero => rfl
  | succ n ih =>
    rw [List.range_succ, List.foldl_append, List.foldl_append,
      ih (fun i hi => h i (Nat.lt_succ_of_lt hi))]
    simp only [List.foldl_cons, List.foldl_nil, h n (Nat.lt_succ_self n)]

end Traversal

section ForwardLemmas

variable {real : Type} [Zero real] [Add real] [Sub real] [Mul real] [Div real] [NatCast real]
  [LT real] [DecidableRel (fun a b : real => a < b)]

theorem updateOutput_mismatch (env : OMPEnv) (log : real → real)
    (input target output : THTensor real) (sizeAverage reduce : Bool)
    (h : THTensor_nElement input ≠ THTensor_nElement target) :
    DistKLDivCriterion_updateOutput env log input target output sizeAverage reduce
      = ⟨some THError.ShapeMismatch, output⟩ := by
  simp [DistKLDivCriterion_updateOutput, THNN_CHECK_NELEMENT, h]

theorem updateOutput_unreduced (env : OMPEnv) (log : real → real)
    (input target output : THTensor real) (sizeAverage : Bool)
    (h : THTensor_nElement input = THTensor_nElement target) :
    DistKLDivCriterion_updateOutput env log input target output sizeAverage false
      = ⟨none, ⟨input.size, fun j =>
          if j < THTensor_nElement input then
            (if target.data j > 0 then target.data j * (log (target.data j) - input.data j)
              else 0)
          else output.data j⟩⟩ := by
  have hc : THNN_CHECK_NELEMENT input target = none := by simp [THNN_CHECK_NELEMENT, h]
  unfold DistKLDivCriterion_updateOutput
  rw [hc]
  simp only [Bool.not_false, if_true]
  cases env.openmp <;> cases env.omp_in_parallel <;>
    simp only [TH_TENSOR_APPLY3_OMP_eq, TH_TENSOR_APPLY3_eq_map3Range, map3Range,
      THTensor_resizeAs, if_true, if_false, Bool.false_eq_true, Nat.zero_le, true_and]

theorem updateOutput_reduced_fold (env : OMPEnv) (log : real → real)
    (input target output : THTensor real) (sizeAverage : Bool)
    (h : THTensor_nElement input = THTensor_nElement target) :
    DistKLDivCriterion_updateOutput env log input target output sizeAverage true
      = ⟨none, ⟨[1], Function.update output.data 0
          (if sizeAverage then
            (List.range (THTensor_nElement input)).foldl (fun acc i =>
              acc + (if target.data i > 0 then
                target.data i * (log (target.data i) - input.data i) else 0)) 0
              / (THTensor_nElement input : real)
          else
            (List.range (THTensor_nElement input)).foldl (fun acc i =>
              acc + (if target.data i > 0 then
                target.data i * (log (target.data i) - input.data i) else 0)) 0)⟩⟩ := by
  have hc : THNN_CHECK_NELEMENT input target = none := by simp [THNN_CHECK_NELEMENT, h]
  unfold DistKLDivCriterion_updateOutput
  rw [hc]
  simp only [Bool.not_true, Bool.false_eq_true, if_false, TH_TENSOR_APPLY2, THTensor_set1d,
    writeAt, THTensor_resize1d]

end ForwardLemmas

section BackwardLemmas

variable {real : Type} [Zero real] [One real] [Neg real] [Mul real] [Div real] [NatCast real]
  [LT real] [DecidableRel (fun a b : real => a < b)]

theorem updateGradInput_mismatch (env : OMPEnv)
    (input target gradOutput gradInput : THTensor real) (sizeAverage reduce : Bool)
    (h : THTensor_nElement input ≠ THTensor_nElement target) :
    DistKLDivCriterion_updateGradInput env input target gradOutput gradInput sizeAverage reduce
      = ⟨some THError.ShapeMismatch, gradInput⟩ := by
  simp [DistKLDivCriterion_updateGradInput, THNN_CHECK_NELEMENT, h]

theorem updateGradInput_unreduced_mismatch (env : OMPEnv)
    (input target gradOutput gradInput : THTensor real) (sizeAverage : Bool)
    (h : THTensor_nElement input = THTensor_nElement target)
    (hg : THTensor_nElement input ≠ THTensor_nElement gradOutput) :
    DistKLDivCriterion_updateGradInput env input target gradOutput gradInput sizeAverage false
      = ⟨some THError.ShapeMismatch, THTensor_resizeAs gradInput input⟩ := by
  have hc : THNN_CHECK_NELEMENT input target = none := by simp [THNN_CHECK_NELEMENT, h]
  have hc2 : THNN_CHECK_NELEMENT input gradOutput = some THError.ShapeMismatch := by
    simp [THNN_CHECK_NELEMENT, hg]
  unfold DistKLDivCriterion_updateGradInput
  rw [hc]
  simp only [Bool.not_false, if_true]
  rw [hc2]

theorem updateGradInput_unreduced (env : OMPEnv)
    (input target gradOutput gradInput : THTensor real) (sizeAverage : Bool)
    (h : THTensor_nElement input = THTensor_nElement target)
    (hg : THTensor_nElement input = THTensor_nElement gradOutput) :
    DistKLDivCriterion_updateGradInput env input target gradOutput gradInput sizeAverage false
      = ⟨none, ⟨input.size, fun j =>
          if j < THTensor_nElement input then
            (if target.data j > 0 then (-target.data j) * gradOutput.data j else 0)
          else gradInput.data j⟩⟩ := by
  have hc : THNN_CHECK_NELEMENT input target = none := by simp [THNN_CHECK_NELEMENT, h]
  have hc2 : THNN_CHECK_NELEMENT input gradOutput = none := by simp [THNN_CHECK_NELEMENT, hg]
  unfold DistKLDivCriterion_updateGradInput
  rw [hc]
  simp only [Bool.not_false, if_true]
  rw [hc2]
  cases env.openmp <;> cases env.omp_in_parallel <;>
    simp only [TH_TENSOR_APPLY3_OMP_eq, TH_TENSOR_APPLY3_eq_map3Range, map3Range,
      if_true, if_false, Bool.false_eq_true, Nat.zero_le, true_and] <;>
    rfl

theorem updateGradInput_reduced_dim (env : OMPEnv)
    (input target gradOutput gradInput : THTensor real) (sizeAverage : Bool)
    (h : THTensor_nElement input = THTensor_nElement target)
    (hg : THTensor_nElement gradOutput ≠ 1) :
    DistKLDivCriterion_updateGradInput env input target gradOutput gradInput sizeAverage true
      = ⟨some THError.DimensionalityError, THTensor_resizeAs gradInput input⟩ := by
  simp [DistKLDivCriterion_updateGradInput, THNN_CHECK_NELEMENT, THNN_CHECK_DIM_SIZE, h, hg]

theorem updateGradInput_reduced (env : OMPEnv)
    (input target gradOutput gradInput : THTensor real) (sizeAverage : Bool)
    (h : THTensor_nElement input = THTensor_nElement target)
    (hg : THTensor_nElement gradOutput = 1) :
    DistKLDivCriterion_updateGradInput env input target gradOutput gradInput sizeAverage true
      = ⟨none, ⟨input.size, fun j =>
          if j < THTensor_nElement input then
            (if target.data j > 0 then
              (if sizeAverage then 1 / (THTensor_nElement input : real) else 1)
                * (-target.data j) * gradOutput.data 0
            else 0)
          else gradInput.data j⟩⟩ := by
  have hc : THNN_CHECK_NELEMENT input target = none := by simp [THNN_CHECK_NELEMENT, h]
  have hc2 : THNN_CHECK_DIM_SIZE gradOutput 1 0 1 = none := by simp [THNN_CHECK_DIM_SIZE, hg]
  unfold DistKLDivCriterion_updateGradInput
  rw [hc]
  simp only [Bool.not_true, Bool.false_eq_true, if_false]
  rw [hc2]
  cases env.openmp <;> cases env.omp_in_parallel <;>
    simp only [TH_TENSOR_APPLY3_OMP_eq, TH_TENSOR_APPLY3_eq_map3Range, map3Range,
      THTensor_fastGet1d, if_true, if_false, Bool.false_eq_true, Nat.zero_le, true_and] <;>
    rfl

end BackwardLemmas

section KernelLemmasExact

variable {real : Type} [LinearOrderedField real]

theorem foldl_add_eq_sum (f : Nat → real) (a : real) (n : Nat) :
    (List.range n).foldl (fun acc i => acc + f i) a = a + Finset.sum (Finset.range n) f := by
  induction n with
  | zero => simp
  | succ n ih =>
    rw [List.range_succ, List.foldl_append, ih, Finset.sum_range_succ]
    simp only [List.foldl_cons, List.foldl_nil, add_assoc]

theorem updateOutput_reduced (env : OMPEnv) (log : real → real)
    (input target output : THTensor real) (sizeAverage : Bool)
    (h : THTensor_nElement input = THTensor_nElement target) :
    DistKLDivCriterion_updateOutput env log input target output sizeAverage true
      = ⟨none, ⟨[1], Function.update output.data 0
          (if sizeAverage then
            Finset.sum (Finset.range (THTensor_nElement input)) (fun i =>
              if target.data i > 0 then target.data i * (log (target.data i) - input.data i)
              else 0) / (THTensor_nElement input : real)
          else
            Finset.sum (Finset.range (THTensor_nElement input)) (fun i =>
              if target.data i > 0 then target.data i * (log (target.data i) - input.data i)
              else 0))⟩⟩ := by
  have hc : THNN_CHECK_NELEMENT input target = none := by simp [THNN_CHECK_NELEMENT, h]
  unfold DistKLDivCriterion_updateOutput
  rw [hc]
  simp only [Bool.not_true, Bool.false_eq_true, if_false, TH_TENSOR_APPLY2, THTensor_set1d,
    writeAt, THTensor_resize1d]
  rw [foldl_add_eq_sum (fun i =>
    if target.data i > 0 then target.data i * (log (target.data i) - input.data i) else 0)]
  simp only [zero_add]

end KernelLemmasExact

section Derivative

theorem hasDerivAt_forward_term (log : ℝ → ℝ) (inp tgt : Nat → ℝ) (i j : Nat) (x0 : ℝ) :
    HasDerivAt
      (fun x => if tgt j > 0 then tgt j * (log (tgt j) - Function.update inp i x j) else 0)
      (if j = i then (if tgt i > 0 then -tgt i else 0) else 0) x0 := by
  by_cases hj : j = i
  · subst hj
    by_cases ht : tgt j > 0
    · simp only [if_pos ht, Function.update_same, if_true]
      have hd := ((hasDerivAt_id x0).const_sub (log (tgt j))).const_mul (tgt j)
      simpa using hd
    · simp only [if_neg ht, if_true]
      exact hasDerivAt_const x0 (0 : ℝ)
  · simp only [Function.update_noteq hj, if_neg hj]
    exact hasDerivAt_const x0 _

theorem hasDerivAt_forward_sum (log : ℝ → ℝ) (inp tgt : Nat → ℝ) (n i : Nat) (hi : i < n)
    (x0 : ℝ) :
    HasDerivAt
      (fun x => Finset.sum (Finset.range n) (fun j =>
        if tgt j > 0 then tgt j * (log (tgt j) - Function.update inp i x j) else 0))
      (if tgt i > 0 then -tgt i else 0) x0 := by
  have hs := HasDerivAt.sum (u := Finset.range n)
    (fun j _ => hasDerivAt_forward_term log inp tgt i j x0)
  rw [Finset.sum_ite_eq' (Finset.range n) i, if_pos (Finset.mem_range.mpr hi)] at hs
  exact hs

end Derivative

section Claims

/-! The theorems of this section take `real` to be a linearly ordered field (exact
arithmetic), except the counterexamples, which are evaluated in `Double`. -/

variable {real : Type} [LinearOrderedField real]

/-- C1. Forward, unreduced: when `input` and `target` have the same element count `n`
(whatever their shapes) and `reduce = false`, the forward kernel succeeds and, at every
logical index `i < n`, the output element is `target[i] * (log(target[i]) - input[i])` when
`target[i] > 0` and exactly `0` when `target[i] ≤ 0`, for either value of `sizeAverage`. -/
theorem C1_forward_unreduced (env : OMPEnv) (log : real → real)
    (input target output : THTensor real) (sizeAverage : Bool)
    (h : THTensor_nElement input = THTensor_nElement target) :
    (DistKLDivCriterion_updateOutput env log input target output sizeAverage false).error = none
    ∧ ∀ i, i < THTensor_nElement input →
      (target.data i > 0 →
        (DistKLDivCriterion_updateOutput env log input target output sizeAverage false).tensor.data i
          = target.data i * (log (target.data i) - input.data i))
      ∧ (target.data i ≤ 0 →
        (DistKLDivCriterion_updateOutput env log input target output sizeAverage false).tensor.data i
          = 0) := by
  rw [updateOutput_unreduced env log input target output sizeAverage h]
  refine ⟨rfl, fun i hi => ⟨fun ht => ?_, fun ht => ?_⟩⟩
  · simp only [if_pos hi, if_pos ht]
  · simp only [if_pos hi, if_neg (not_lt.mpr ht)]

/-- Witness of C1 at input `[0,0,0]`, target `[1,0,0]`, read at index 0 (positive target)
and index 1 (zero target). -/
theorem C1_forward_unreduced_witness :
    THTensor_nElement exInput = THTensor_nElement exTarget
    ∧ exTarget.data 0 > 0
    ∧ exTarget.data 1 ≤ 0
    ∧ (DistKLDivCriterion_updateOutput exEnv exLog exInput exTarget exOutput true false).error
        = none
    ∧ (DistKLDivCriterion_updateOutput exEnv exLog exInput exTarget exOutput true
        false).tensor.data 0 = exTarget.data 0 * (exLog (exTarget.data 0) - exInput.data 0)
    ∧ (DistKLDivCriterion_updateOutput exEnv exLog exInput exTarget exOutput true
        false).tensor.data 1 = 0 :=
  ⟨rfl, by simp [exTarget], by simp [exTarget],
    (C1_forward_unreduced exEnv exLog exInput exTarget exOutput true rfl).1,
    ((C1_forward_unreduced exEnv exLog exInput exTarget exOutput true rfl).2 0
      (by decide)).1 (by simp [exTarget]),
    ((C1_forward_unreduced exEnv exLog exInput exTarget exOutput true rfl).2 1
      (by decide)).2 (by simp [exTarget])⟩

/-- C2. Forward, reduced: when `input` and `target` have the same element count `n` and
`reduce = true`, the call succeeds, leaves a single-element output, and the element it
stores is the sum over all `i < n` of the values the unreduced call (same `input` and
`target`) writes to `output[i]`, divided by `n` when `sizeAverage` is true. -/
theorem C2_forward_reduced (env env2 : OMPEnv) (log : real → real)
    (input target output output2 : THTensor real) (sizeAverage sizeAverage2 : Bool)
    (h : THTensor_nElement input = THTensor_nElement target) :
    (DistKLDivCriterion_updateOutput env log input target output sizeAverage true).error = none
    ∧ THTensor_nElement
        (DistKLDivCriterion_updateOutput env log input target output sizeAverage true).tensor = 1
    ∧ (DistKLDivCriterion_updateOutput env log input target output sizeAverage true).tensor.data 0
      = (if sizeAverage then
          Finset.sum (Finset.range (THTensor_nElement input)) (fun i =>
            (DistKLDivCriterion_updateOutput env2 log input target output2 sizeAverage2
              false).tensor.data i) / (THTensor_nElement input : real)
        else
          Finset.sum (Finset.range (THTensor_nElement input)) (fun i =>
            (DistKLDivCriterion_updateOutput env2 log input target output2 sizeAverage2
              false).tensor.data i)) := by
  rw [updateOutput_reduced env log input target output sizeAverage h,
    updateOutput_unreduced env2 log input target output2 sizeAverage2 h]
  refine ⟨rfl, by simp [THTensor_nElement], ?_⟩
  have hs : Finset.sum (Finset.range (THTensor_nElement input)) (fun i =>
        if i < THTensor_nElement input then
          (if target.data i > 0 then target.data i * (log (target.data i) - input.data i)
            else 0)
        else output2.data i)
      = Finset.sum (Finset.range (THTensor_nElement input)) (fun i =>
        if target.data i > 0 then target.data i * (log (target.data i) - input.data i)
        else 0) :=
    Finset.sum_congr rfl (fun i hi => if_pos (Finset.mem_range.mp hi))
  simp only [Function.update_same, hs]

/-- Witness of C2 at input `[0,0,0]`, target `[1,0,0]`, with size averaging. -/
theorem C2_forward_reduced_witness :
    THTensor_nElement exInput = THTensor_nElement exTarget
    ∧ ((DistKLDivCriterion_updateOutput exEnv exLog exInput exTarget exOutput true true).error
        = none
      ∧ THTensor_nElement
          (DistKLDivCriterion_updateOutput exEnv exLog exInput exTarget exOutput true true).tensor
          = 1
      ∧ (DistKLDivCriterion_updateOutput exEnv exLog exInput exTarget exOutput true true).tensor.data 0
        = (if true then
            Finset.sum (Finset.range (THTensor_nElement exInput)) (fun i =>
              (DistKLDivCriterion_updateOutput exEnv exLog exInput exTarget exShort false
                false).tensor.data i) / (THTensor_nElement exInput : ℚ)
          else
            Finset.sum (Finset.range (THTensor_nElement exInput)) (fun i =>
              (DistKLDivCriterion_updateOutput exEnv exLog exInput exTarget exShort false
                false).tensor.data i))) :=
  ⟨rfl, C2_forward_reduced exEnv exEnv exLog exInput exTarget exOutput exShort true false rfl⟩

/-- C3. Backward, unreduced: when `input`, `target` and `gradOutput` all have the same
element count `n` and `reduce = false`, the backward kernel succeeds and, at every logical
index `i < n`, `gradInput[i] = -target[i] * gradOutput[i]` when `target[i] > 0` and
`gradInput[i] = 0` when `target[i] ≤ 0`, for either value of `sizeAverage`. -/
theorem C3_backward_unreduced (env : OMPEnv)
    (input target gradOutput gradInput : THTensor real) (sizeAverage : Bool)
    (h : THTensor_nElement input = THTensor_nElement target)
    (hg : THTensor_nElement input = THTensor_nElement gradOutput) :
    (DistKLDivCriterion_updateGradInput env input target gradOutput gradInput sizeAverage
      false).error = none
    ∧ ∀ i, i < THTensor_nElement input →
      (target.data i > 0 →
        (DistKLDivCriterion_updateGradInput env input target gradOutput gradInput sizeAverage
          false).tensor.data i = -target.data i * gradOutput.data i)
      ∧ (target.data i ≤ 0 →
        (DistKLDivCriterion_updateGradInput env input target gradOutput gradInput sizeAverage
          false).tensor.data i = 0) := by
  rw [updateGradInput_unreduced env input target gradOutput gradInput sizeAverage h hg]
  refine ⟨rfl, fun i hi => ⟨fun ht => ?_, fun ht => ?_⟩⟩
  · simp only [if_pos hi, if_pos ht]
  · simp only [if_pos hi, if_neg (not_lt.mpr ht)]

/-- Witness of C3 at input `[0,0,0]`, target `[1,0,0]`, gradOutput `[1,1,1]`, read at
index 0 (positive target) and index 1 (zero target). -/
theorem C3_backward_unreduced_witness :
    THTensor_nElement exInput = THTensor_nElement exTarget
    ∧ THTensor_nElement exInput = THTensor_nElement exGradOutput3
    ∧ exTarget.data 0 > 0
    ∧ exTarget.data 1 ≤ 0
    ∧ (DistKLDivCriterion_updateGradInput exEnv exInput exTarget exGradOutput3 exOutput true
        false).error = none
    ∧ (DistKLDivCriterion_updateGradInput exEnv exInput exTarget exGradOutput3 exOutput true
        false).tensor.data 0 = -exTarget.data 0 * exGradOutput3.data 0
    ∧ (DistKLDivCriterion_updateGradInput exEnv exInput exTarget exGradOutput3 exOutput true
        false).tensor.data 1 = 0 :=
  ⟨rfl, rfl, by simp [exTarget], by simp [exTarget],
    (C3_backward_unreduced exEnv exInput exTarget exGradOutput3 exOutput true rfl rfl).1,
    ((C3_backward_unreduced exEnv exInput exTarget exGradOutput3 exOutput true rfl rfl).2 0
      (by decide)).1 (by simp [exTarget]),
    ((C3_backward_unreduced exEnv exInput exTarget exGradOutput3 exOutput true rfl rfl).2 1
      (by decide)).2 (by simp [exTarget])⟩

/-- C4. Backward, reduced: when `input` and `target` have the same element count `n`,
`gradOutput` is a single-element tensor holding `g`, and `reduce = true`, the backward
kernel succeeds and, at every logical index `i < n`, `gradInput[i] = norm * (-target[i]) * g`
when `target[i] > 0` and `gradInput[i] = 0` when `target[i] ≤ 0`, where `norm = 1 / n` if
`sizeAverage` is true and `norm = 1` otherwise. -/
theorem C4_backward_reduced (env : OMPEnv)
    (input target gradOutput gradInput : THTensor real) (sizeAverage : Bool) (g : real)
    (h : THTensor_nElement input = THTensor_nElement target)
    (hg : THTensor_nElement gradOutput = 1) (hgv : gradOutput.data 0 = g) :
    (DistKLDivCriterion_updateGradInput env input target gradOutput gradInput sizeAverage
      true).error = none
    ∧ ∀ i, i < THTensor_nElement input →
      (target.data i > 0 →
        (DistKLDivCriterion_updateGradInput env input target gradOutput gradInput sizeAverage
          true).tensor.data i
          = (if sizeAverage then 1 / (THTensor_nElement input : real) else 1)
              * (-target.data i) * g)
      ∧ (target.data i ≤ 0 →
        (DistKLDivCriterion_updateGradInput env input target gradOutput gradInput sizeAverage
          true).tensor.data i = 0) := by
  rw [updateGradInput_reduced env input target gradOutput gradInput sizeAverage h hg]
  refine ⟨rfl, fun i hi => ⟨fun ht => ?_, fun ht => ?_⟩⟩
  · simp only [if_pos hi, if_pos ht, hgv]
  · simp only [if_pos hi, if_neg (not_lt.mpr ht)]

/-- Witness of C4 at input `[0,0,0]`, target `[1,0,0]`, gradOutput `[2]`, with size
averaging, read at index 0 (positive target) and index 1 (zero target). -/
theorem C4_backward_reduced_witness :
    THTensor_nElement exInput = THTensor_nElement exTarget
    ∧ THTensor_nElement exGradOutput1 = 1
    ∧ exGradOutput1.data 0 = 2
    ∧ exTarget.data 0 > 0
    ∧ exTarget.data 1 ≤ 0
    ∧ (DistKLDivCriterion_updateGradInput exEnv exInput exTarget exGradOutput1 exOutput true
        true).error = none
    ∧ (DistKLDivCriterion_updateGradInput exEnv exInput exTarget exGradOutput1 exOutput true
        true).tensor.data 0
        = (if true then 1 / (THTensor_nElement exInput : ℚ) else 1) * (-exTarget.data 0) * 2
    ∧ (DistKLDivCriterion_updateGradInput exEnv exInput exTarget exGradOutput1 exOutput true
        true).tensor.data 1 = 0 :=
  ⟨rfl, rfl, rfl, by simp [exTarget], by simp [exTarget],
    (C4_backward_reduced exEnv exInput exTarget exGradOutput1 exOutput true 2 rfl rfl rfl).1,
    ((C4_backward_reduced exEnv exInput exTarget exGradOutput1 exOutput true 2 rfl rfl rfl).2 0
      (by decide)).1 (by simp [exTarget]),
    ((C4_backward_reduced exEnv exInput exTarget exGradOutput1 exOutput true 2 rfl rfl rfl).2 1
      (by decide)).2 (by simp [exTarget])⟩

/-- C5. Input/target mismatch: when the element counts of `input` and `target` differ, both
kernels fail with a shape-mismatch error for every `sizeAverage` and `reduce`, and the
tensor they write (`output`, respectively `gradInput`) is left with the shape and contents
it had before the call; conversely the forward kernel never fails when the two element
counts are equal. -/
theorem C5_input_target_mismatch (env : OMPEnv) (log : real → real)
    (input target output gradOutput gradInput : THTensor real) (sizeAverage reduce : Bool) :
    (THTensor_nElement input ≠ THTensor_nElement target →
      (DistKLDivCriterion_updateOutput env log input target output sizeAverage reduce).error
          = some THError.ShapeMismatch
        ∧ (DistKLDivCriterion_updateOutput env log input target output sizeAverage
            reduce).tensor = output
        ∧ (DistKLDivCriterion_updateGradInput env input target gradOutput gradInput sizeAverage
            reduce).error = some THError.ShapeMismatch
        ∧ (DistKLDivCriterion_updateGradInput env input target gradOutput gradInput sizeAverage
            reduce).tensor = gradInput)
    ∧ (THTensor_nElement input = THTensor_nElement target →
      (DistKLDivCriterion_updateOutput env log input target output sizeAverage reduce).error
        = none) := by
  constructor
  · intro h
    rw [updateOutput_mismatch env log input target output sizeAverage reduce h,
      updateGradInput_mismatch env input target gradOutput gradInput sizeAverage reduce h]
    exact ⟨rfl, rfl, rfl, rfl⟩
  · intro h
    cases reduce
    · rw [updateOutput_unreduced env log input target output sizeAverage h]
    · rw [updateOutput_reduced env log input target output sizeAverage h]

/-- Witness of C5: a two-element input against the three-element target `[1,0,0]` for the
failure, and the input `[0,0,0]` against the same target for the converse. -/
theorem C5_input_target_mismatch_witness :
    (THTensor_nElement exShort ≠ THTensor_nElement exTarget
      ∧ (DistKLDivCriterion_updateOutput exEnv exLog exShort exTarget exOutput true false).error
          = some THError.ShapeMismatch
      ∧ (DistKLDivCriterion_updateOutput exEnv exLog exShort exTarget exOutput true
          false).tensor = exOutput
      ∧ (DistKLDivCriterion_updateGradInput exEnv exShort exTarget exGradOutput3 exOutput true
          false).error = some THError.ShapeMismatch
      ∧ (DistKLDivCriterion_updateGradInput exEnv exShort exTarget exGradOutput3 exOutput true
          false).tensor = exOutput)
    ∧ (THTensor_nElement exInput = THTensor_nElement exTarget
      ∧ (DistKLDivCriterion_updateOutput exEnv exLog exInput exTarget exOutput true true).error
          = none) :=
  ⟨⟨by decide,
      (C5_input_target_mismatch exEnv exLog exShort exTarget exOutput exGradOutput3 exOutput
        true false).1 (by decide)⟩,
    ⟨rfl,
      (C5_input_target_mismatch exEnv exLog exInput exTarget exOutput exGradOutput3 exOutput
        true true).2 rfl⟩⟩

/-- C6. Reduced backward gradOutput check: when `input` and `target` have the same element
count and `reduce = true`, the backward kernel fails with a dimensionality error if and
only if the element count of `gradOutput` differs from 1; every `gradOutput` with more than
one element is rejected, and every single-element `gradOutput` is accepted whatever its
rank (in particular every shape made of ones only). -/
theorem C6_reduced_gradOutput_check (env : OMPEnv)
    (input target gradOutput gradInput : THTensor real) (sizeAverage : Bool)
    (h : THTensor_nElement input = THTensor_nElement target) :
    ((DistKLDivCriterion_updateGradInput env input target gradOutput gradInput sizeAverage
        true).error = some THError.DimensionalityError ↔ THTensor_nElement gradOutput ≠ 1)
    ∧ (1 < THTensor_nElement gradOutput →
        (DistKLDivCriterion_updateGradInput env input target gradOutput gradInput sizeAverage
          true).error = some THError.DimensionalityError)
    ∧ (THTensor_nElement gradOutput = 1 →
        (DistKLDivCriterion_updateGradInput env input target gradOutput gradInput sizeAverage
          true).error = none)
    ∧ (∀ rank : Nat, gradOutput.size = List.replicate rank 1 →
        (DistKLDivCriterion_updateGradInput env input target gradOutput gradInput sizeAverage
          true).error = none) := by
  have hyes : THTensor_nElement gradOutput = 1 →
      (DistKLDivCriterion_updateGradInput env input target gradOutput gradInput sizeAverage
        true).error = none := by
    intro hg
    rw [updateGradInput_reduced env input target gradOutput gradInput sizeAverage h hg]
  have hno : THTensor_nElement gradOutput ≠ 1 →
      (DistKLDivCriterion_updateGradInput env input target gradOutput gradInput sizeAverage
        true).error = some THError.DimensionalityError := by
    intro hg
    rw [updateGradInput_reduced_dim env input target gradOutput gradInput sizeAverage h hg]
  refine ⟨⟨fun he hg => ?_, hno⟩, fun hlt => hno (by omega), hyes, fun rank hr => hyes ?_⟩
  · rw [hyes hg] at he
    cases he
  · simp [THTensor_nElement, hr]

/-- Witness of C6 at input `[0,0,0]`, target `[1,0,0]` and the single-element gradOutput of
shape `1 x 1`. -/
theorem C6_reduced_gradOutput_check_witness :
    THTensor_nElement exInput = THTensor_nElement exTarget
    ∧ exGradOutput11.size = List.replicate 2 1
    ∧ (DistKLDivCriterion_updateGradInput exEnv exInput exTarget exGradOutput11 exOutput true
        true).error = none :=
  ⟨rfl, rfl,
    (C6_reduced_gradOutput_check exEnv exInput exTarget exGradOutput11 exOutput true rfl).2.2.2
      2 rfl⟩

/-- C7, counterexample. With input `[0,0,0]` and target `[1,0,0]`, a two-element gradOutput
makes the backward kernel fail because of gradOutput, with `reduce = false` (shape mismatch)
as with `reduce = true` (dimensionality error); in both calls the two-element gradInput
`[7,7]` has a different shape after the failed call than before it. -/
theorem C7_counterexample :
    THTensor_nElement exInput = THTensor_nElement exTarget
    ∧ THTensor_nElement exShort ≠ THTensor_nElement exInput
    ∧ THTensor_nElement exShort ≠ 1
    ∧ (DistKLDivCriterion_updateGradInput exEnv exInput exTarget exShort exOutput true
        false).error = some THError.ShapeMismatch
    ∧ (DistKLDivCriterion_updateGradInput exEnv exInput exTarget exShort exOutput true
        false).tensor.size ≠ exOutput.size
    ∧ (DistKLDivCriterion_updateGradInput exEnv exInput exTarget exShort exOutput true
        true).error = some THError.DimensionalityError
    ∧ (DistKLDivCriterion_updateGradInput exEnv exInput exTarget exShort exOutput true
        true).tensor.size ≠ exOutput.size := by
  rw [updateGradInput_unreduced_mismatch exEnv exInput exTarget exShort exOutput true rfl
      (by decide),
    updateGradInput_reduced_dim exEnv exInput exTarget exShort exOutput true rfl (by decide)]
  refine ⟨rfl, by decide, by decide, rfl, ?_, rfl, ?_⟩ <;>
    simp [THTensor_resizeAs, exInput, exOutput]

/-- C7, amended. When the backward kernel fails because of gradOutput (`reduce = false` and
the element count of `gradOutput` differs from that of `input`, or `reduce = true` and
`gradOutput` is not a single-element tensor), the error is raised after `gradInput` has been
resized to the shape of `input` and before any element of it is written: after the failed
call `gradInput` is the resized tensor, it has the shape of `input`, and when it already had
that shape before the call its shape and contents are unchanged. -/
theorem C7_gradOutput_error_after_resize (env : OMPEnv)
    (input target gradOutput gradInput : THTensor real) (sizeAverage reduce : Bool)
    (h : THTensor_nElement input = THTensor_nElement target)
    (hg : (reduce = false ∧ THTensor_nElement input ≠ THTensor_nElement gradOutput)
      ∨ (reduce = true ∧ THTensor_nElement gradOutput ≠ 1)) :
    (DistKLDivCriterion_updateGradInput env input target gradOutput gradInput sizeAverage
        reduce).error
        = some (if reduce then THError.DimensionalityError else THError.ShapeMismatch)
    ∧ (DistKLDivCriterion_updateGradInput env input target gradOutput gradInput sizeAverage
        reduce).tensor = THTensor_resizeAs gradInput input
    ∧ (DistKLDivCriterion_updateGradInput env input target gradOutput gradInput sizeAverage
        reduce).tensor.size = input.size
    ∧ (gradInput.size = input.size →
        (DistKLDivCriterion_updateGradInput env input target gradOutput gradInput sizeAverage
          reduce).tensor = gradInput) := by
  have hsame : gradInput.size = input.size → THTensor_resizeAs gradInput input = gradInput := by
    intro hs
    ext1
    · exact hs.symm
    · rfl
  rcases hg with ⟨hr, hg⟩ | ⟨hr, hg⟩
  · subst hr
    rw [updateGradInput_unreduced_mismatch env input target gradOutput gradInput sizeAverage h
      hg]
    exact ⟨rfl, rfl, rfl, hsame⟩
  · subst hr
    rw [updateGradInput_reduced_dim env input target gradOutput gradInput sizeAverage h hg]
    exact ⟨rfl, rfl, rfl, hsame⟩

/-- Witness of the amended C7 at input `[0,0,0]`, target `[1,0,0]`, a two-element
gradOutput, `reduce = false` and a gradInput `[1,1,1]` that already has the shape of
`input`. -/
theorem C7_gradOutput_error_after_resize_witness :
    THTensor_nElement exInput = THTensor_nElement exTarget
    ∧ ((false = false ∧ THTensor_nElement exInput ≠ THTensor_nElement exShort)
      ∨ (false = true ∧ THTensor_nElement exShort ≠ 1))
    ∧ exGradOutput3.size = exInput.size
    ∧ (DistKLDivCriterion_updateGradInput exEnv exInput exTarget exShort exGradOutput3 true
        false).error = some THError.ShapeMismatch
    ∧ (DistKLDivCriterion_updateGradInput exEnv exInput exTarget exShort exGradOutput3 true
        false).tensor = exGradOutput3 :=
  ⟨rfl, Or.inl ⟨rfl, by decide⟩, rfl,
    (C7_gradOutput_error_after_resize exEnv exInput exTarget exShort exGradOutput3 true false
      rfl (Or.inl ⟨rfl, by decide⟩)).1,
    (C7_gradOutput_error_after_resize exEnv exInput exTarget exShort exGradOutput3 true false
      rfl (Or.inl ⟨rfl, by decide⟩)).2.2.2 rfl⟩

/-- C8. Backward is the analytic derivative of forward, over the reals: for every target,
every input with the same element count `n` and every index `i < n`, the reduced forward
output, as a function of `input[i]`, has a derivative at `input[i]`, equal to `gradInput[i]`
of the reduced backward call with the same `sizeAverage` and `gradOutput = [1]`; likewise
the unreduced `output[i]` has a derivative with respect to `input[i]`, equal to
`gradInput[i]` of the unreduced backward call with a gradOutput of ones, that is
`-target[i]` where `target[i] > 0` and `0` elsewhere. -/
theorem C8_backward_is_derivative (env env2 : OMPEnv) (log : ℝ → ℝ)
    (input target output gradOutput gradInput ones gradInput2 : THTensor ℝ)
    (sizeAverage sizeAverage2 : Bool) (i : Nat)
    (h : THTensor_nElement input = THTensor_nElement target)
    (hi : i < THTensor_nElement input)
    (hg : THTensor_nElement gradOutput = 1) (hgv : gradOutput.data 0 = 1)
    (hones : THTensor_nElement input = THTensor_nElement ones)
    (hones1 : ∀ j, j < THTensor_nElement input → ones.data j = 1) :
    HasDerivAt
      (fun x => (DistKLDivCriterion_updateOutput env log (writeAt input i x) target
        output sizeAverage true).tensor.data 0)
      ((DistKLDivCriterion_updateGradInput env2 input target gradOutput gradInput sizeAverage
        true).tensor.data i)
      (input.data i)
    ∧ HasDerivAt
      (fun x => (DistKLDivCriterion_updateOutput env log (writeAt input i x) target
        output sizeAverage false).tensor.data i)
      ((DistKLDivCriterion_updateGradInput env2 input target ones gradInput2 sizeAverage2
        false).tensor.data i)
      (input.data i)
    ∧ (DistKLDivCriterion_updateGradInput env2 input target ones gradInput2 sizeAverage2
        false).tensor.data i = (if target.data i > 0 then -target.data i else 0) := by
  have hset : ∀ x : ℝ,
      THTensor_nElement (writeAt input i x) = THTensor_nElement target := fun _ => h
  have hn : ∀ x : ℝ, THTensor_nElement (writeAt input i x) = THTensor_nElement input :=
    fun _ => rfl
  rw [updateGradInput_reduced env2 input target gradOutput gradInput sizeAverage h hg,
    updateGradInput_unreduced env2 input target ones gradInput2 sizeAverage2 h hones]
  simp only [if_pos hi, hgv, hones1 i hi, mul_one]
  have hsum := hasDerivAt_forward_sum log input.data target.data (THTensor_nElement input) i hi
    (input.data i)
  refine ⟨?_, ?_, trivial⟩
  · have hF : (fun x => (DistKLDivCriterion_updateOutput env log (writeAt input i x)
          target output sizeAverage true).tensor.data 0)
        = fun x => (if sizeAverage then
            Finset.sum (Finset.range (THTensor_nElement input)) (fun j =>
              if target.data j > 0 then
                target.data j * (log (target.data j) - Function.update input.data i x j)
              else 0) / (THTensor_nElement input : ℝ)
          else
            Finset.sum (Finset.range (THTensor_nElement input)) (fun j =>
              if target.data j > 0 then
                target.data j * (log (target.data j) - Function.update input.data i x j)
              else 0)) := by
      funext x
      rw [updateOutput_reduced env log (writeAt input i x) target output sizeAverage
        (hset x)]
      simp only [Function.update_same, hn x]
      rfl
    rw [hF]
    cases sizeAverage
    · simp only [Bool.false_eq_true, if_false, one_mul]
      exact hsum
    · simp only [if_true]
      have hd := hsum.div_const (THTensor_nElement input : ℝ)
      by_cases ht : target.data i > 0
      · simp only [if_pos ht] at hd ⊢
        have he : 1 / (THTensor_nElement input : ℝ) * -target.data i
            = -target.data i / (THTensor_nElement input : ℝ) := by ring
        rw [he]
        exact hd
      · simp only [if_neg ht, zero_div] at hd ⊢
        exact hd
  · have hF : (fun x => (DistKLDivCriterion_updateOutput env log (writeAt input i x)
          target output sizeAverage false).tensor.data i)
        = fun x => (if target.data i > 0 then
            target.data i * (log (target.data i) - Function.update input.data i x i)
          else 0) := by
      funext x
      rw [updateOutput_unreduced env log (writeAt input i x) target output sizeAverage
        (hset x)]
      simp only [hn x, if_pos hi]
      rfl
    rw [hF]
    have hd := hasDerivAt_forward_term log input.data target.data i i (input.data i)
    simp only [if_true] at hd
    exact hd

/-- Witness of C8 at input `[0,0,0]`, target `[1,0,0]` and index 0, with the natural
logarithm and size averaging. -/
theorem C8_backward_is_derivative_witness :
    THTensor_nElement exInputR = THTensor_nElement exTargetR
    ∧ 0 < THTensor_nElement exInputR
    ∧ THTensor_nElement exGradOneR = 1
    ∧ exGradOneR.data 0 = 1
    ∧ THTensor_nElement exInputR = THTensor_nElement exOnesR
    ∧ (HasDerivAt
        (fun x => (DistKLDivCriterion_updateOutput exEnv Real.log (writeAt exInputR 0 x)
          exTargetR exOutputR true true).tensor.data 0)
        ((DistKLDivCriterion_updateGradInput exEnv exInputR exTargetR exGradOneR exOutputR true
          true).tensor.data 0)
        (exInputR.data 0)
      ∧ HasDerivAt
        (fun x => (DistKLDivCriterion_updateOutput exEnv Real.log (writeAt exInputR 0 x)
          exTargetR exOutputR true false).tensor.data 0)
        ((DistKLDivCriterion_updateGradInput exEnv exInputR exTargetR exOnesR exOutputR false
          false).tensor.data 0)
        (exInputR.data 0)
      ∧ (DistKLDivCriterion_updateGradInput exEnv exInputR exTargetR exOnesR exOutputR false
          false).tensor.data 0 = (if exTargetR.data 0 > 0 then -exTargetR.data 0 else 0)) :=
  ⟨rfl, by decide, rfl, rfl, rfl,
    C8_backward_is_derivative exEnv exEnv Real.log exInputR exTargetR exOutputR exGradOneR
      exOutputR exOnesR exOutputR true false 0 rfl (by decide) rfl rfl rfl (fun _ _ => rfl)⟩

set_option maxRecDepth 100000 in
/-- C9, counterexample. In `double` arithmetic, with three elements, target `[3,3,3]`,
gradOutput `[7]` and size averaging, the reduced call computes `((1/3) * (-3)) * 7 = -7` at
index 0, while `(1/3) * 7` times the unreduced result on ones, and the unreduced result on
three copies of `(1/3) * 7`, are both `-3 * ((1/3) * 7)`, one unit in the last place away
from `-7`. -/
theorem C9_counterexample :
    THTensor_nElement dblZeros3 = THTensor_nElement dblThrees
    ∧ THTensor_nElement dblSeven = 1
    ∧ (∀ i, i < THTensor_nElement dblZeros3 → dblOnes3.data i = 1)
    ∧ (∀ i, i < THTensor_nElement dblZeros3 →
        dblScaled3.data i = 1 / (THTensor_nElement dblZeros3 : Double) * dblSeven.data 0)
    ∧ (DistKLDivCriterion_updateGradInput exEnv dblZeros3 dblThrees dblSeven dblOut true
        true).tensor.data 0 = Double.fin true 7881299347898368 (-50)
    ∧ 1 / (THTensor_nElement dblZeros3 : Double) * dblSeven.data 0
        * (DistKLDivCriterion_updateGradInput exEnv dblZeros3 dblThrees dblOnes3 dblOut true
            false).tensor.data 0 = Double.fin true 7881299347898367 (-50)
    ∧ (DistKLDivCriterion_updateGradInput exEnv dblZeros3 dblThrees dblScaled3 dblOut true
        false).tensor.data 0 = Double.fin true 7881299347898367 (-50)
    ∧ (DistKLDivCriterion_updateGradInput exEnv dblZeros3 dblThrees dblSeven dblOut true
        true).tensor.data 0
        ≠ 1 / (THTensor_nElement dblZeros3 : Double) * dblSeven.data 0
          * (DistKLDivCriterion_updateGradInput exEnv dblZeros3 dblThrees dblOnes3 dblOut true
              false).tensor.data 0
    ∧ (DistKLDivCriterion_updateGradInput exEnv dblZeros3 dblThrees dblSeven dblOut true
        true).tensor.data 0
        ≠ (DistKLDivCriterion_updateGradInput exEnv dblZeros3 dblThrees dblScaled3 dblOut true
            false).tensor.data 0 := by
  have hs : (1 / Double.ofNat 3 * Double.ofNat 7 : Double)
      = 1 / (THTensor_nElement dblZeros3 : Double) * dblSeven.data 0 := by decide
  refine ⟨rfl, rfl, fun _ _ => rfl, fun _ _ => hs, ?_, ?_, ?_, ?_, ?_⟩ <;> decide

/-- C9, amended. In exact arithmetic (the element type a linearly ordered field, such as
the real numbers, so that no product is rounded): when `input` and `target` have the same
element count `n` and `gradOutput` is a single-element tensor holding `g`, the `gradInput`
of the reduced call equals, at every index `i < n`, `norm * g` times the `gradInput` of the
unreduced call on a gradOutput of `n` ones, and equals the `gradInput` of the unreduced call
on a gradOutput of `n` copies of `norm * g`, where `norm = 1 / n` if `sizeAverage` is true
and `norm = 1` otherwise. -/
theorem C9_reduced_is_scaled_unreduced (env env1 env2 : OMPEnv)
    (input target gradOutput gradInput ones gradInput1 scaled gradInput2 : THTensor real)
    (sizeAverage sizeAverage1 sizeAverage2 : Bool) (g : real)
    (h : THTensor_nElement input = THTensor_nElement target)
    (hg : THTensor_nElement gradOutput = 1) (hgv : gradOutput.data 0 = g)
    (hones : THTensor_nElement input = THTensor_nElement ones)
    (hones1 : ∀ i, i < THTensor_nElement input → ones.data i = 1)
    (hscaled : THTensor_nElement input = THTensor_nElement scaled)
    (hscaled1 : ∀ i, i < THTensor_nElement input →
      scaled.data i = (if sizeAverage then 1 / (THTensor_nElement input : real) else 1) * g) :
    ∀ i, i < THTensor_nElement input →
      (DistKLDivCriterion_updateGradInput env input target gradOutput gradInput sizeAverage
          true).tensor.data i
        = (if sizeAverage then 1 / (THTensor_nElement input : real) else 1) * g
          * (DistKLDivCriterion_updateGradInput env1 input target ones gradInput1 sizeAverage1
              false).tensor.data i
      ∧ (DistKLDivCriterion_updateGradInput env input target gradOutput gradInput sizeAverage
          true).tensor.data i
        = (DistKLDivCriterion_updateGradInput env2 input target scaled gradInput2 sizeAverage2
            false).tensor.data i := by
  intro i hi
  rw [updateGradInput_reduced env input target gradOutput gradInput sizeAverage h hg,
    updateGradInput_unreduced env1 input target ones gradInput1 sizeAverage1 h hones,
    updateGradInput_unreduced env2 input target scaled gradInput2 sizeAverage2 h hscaled]
  simp only [if_pos hi, hgv, hones1 i hi, hscaled1 i hi]
  by_cases ht : target.data i > 0
  · simp only [if_pos ht]
    constructor <;> ring
  · simp only [if_neg ht, mul_zero, and_self]

/-- Witness of the amended C9 over the rationals, at input `[0,0,0]`, target `[1,0,0]`,
gradOutput `[2]`, with size averaging, read at index 0 where the target is positive. -/
theorem C9_reduced_is_scaled_unreduced_witness :
    THTensor_nElement exInput = THTensor_nElement exTarget
    ∧ THTensor_nElement exGradOutput1 = 1
    ∧ exGradOutput1.data 0 = 2
    ∧ exTarget.data 0 > 0
    ∧ (DistKLDivCriterion_updateGradInput exEnv exInput exTarget exGradOutput1 exOutput true
        true).tensor.data 0
      = (if true then 1 / (THTensor_nElement exInput : ℚ) else 1) * 2
        * (DistKLDivCriterion_updateGradInput exEnv exInput exTarget exGradOutput3 exOutput true
            false).tensor.data 0
    ∧ (DistKLDivCriterion_updateGradInput exEnv exInput exTarget exGradOutput1 exOutput true
        true).tensor.data 0
      = (DistKLDivCriterion_updateGradInput exEnv exInput exTarget exScaledAvg exOutput false
          false).tensor.data 0 :=
  have hn : (THTensor_nElement exInput : ℚ) = 3 := by
    norm_num [THTensor_nElement, exInput]
  ⟨rfl, rfl, rfl, by simp [exTarget],
    C9_reduced_is_scaled_unreduced exEnv exEnv exEnv exInput exTarget exGradOutput1 exOutput
      exGradOutput3 exOutput exScaledAvg exOutput true true false 2 rfl rfl rfl rfl
      (fun _ _ => rfl) rfl
      (fun _ _ => by rw [if_pos rfl, hn]; norm_num [exScaledAvg]) 0 (by decide)⟩

/-- C10. Result shapes: after a successful call, (a) the forward kernel with
`reduce = false` leaves `output` with exactly the shape of `input` (so not the shape of
`target` when the two differ), (b) with `reduce = true` it leaves `output` one-dimensional
of size 1, and (c) the backward kernel leaves `gradInput` with exactly the shape of `input`
for both values of `reduce`, whatever shape `output` / `gradInput` had before the call. -/
theorem C10_result_shapes (env : OMPEnv) (log : real → real)
    (input target output gradOutput gradInput : THTensor real) (sizeAverage reduce : Bool) :
    ((DistKLDivCriterion_updateOutput env log input target output sizeAverage false).error
        = none →
      (DistKLDivCriterion_updateOutput env log input target output sizeAverage false).tensor.size
          = input.size
        ∧ (input.size ≠ target.size →
          (DistKLDivCriterion_updateOutput env log input target output sizeAverage
            false).tensor.size ≠ target.size))
    ∧ ((DistKLDivCriterion_updateOutput env log input target output sizeAverage true).error
        = none →
      (DistKLDivCriterion_updateOutput env log input target output sizeAverage true).tensor.size
        = [1])
    ∧ ((DistKLDivCriterion_updateGradInput env input target gradOutput gradInput sizeAverage
        reduce).error = none →
      (DistKLDivCriterion_updateGradInput env input target gradOutput gradInput sizeAverage
        reduce).tensor.size = input.size) := by
  by_cases h : THTensor_nElement input = THTensor_nElement target
  · refine ⟨fun _ => ?_, fun _ => ?_, ?_⟩
    · rw [updateOutput_unreduced env log input target output sizeAverage h]
      exact ⟨rfl, fun hne => hne⟩
    · rw [updateOutput_reduced env log input target output sizeAverage h]
    · cases reduce
      · by_cases hg : THTensor_nElement input = THTensor_nElement gradOutput
        · rw [updateGradInput_unreduced env input target gradOutput gradInput sizeAverage h hg]
          exact fun _ => rfl
        · rw [updateGradInput_unreduced_mismatch env input target gradOutput gradInput
            sizeAverage h hg]
          exact fun _ => rfl
      · by_cases hg : THTensor_nElement gradOutput = 1
        · rw [updateGradInput_reduced env input target gradOutput gradInput sizeAverage h hg]
          exact fun _ => rfl
        · rw [updateGradInput_reduced_dim env input target gradOutput gradInput sizeAverage h
            hg]
          exact fun _ => rfl
  · rw [updateOutput_mismatch env log input target output sizeAverage false h,
      updateOutput_mismatch env log input target output sizeAverage true h,
      updateGradInput_mismatch env input target gradOutput gradInput sizeAverage reduce h]
    refine ⟨?_, ?_, ?_⟩ <;> intro he <;> cases he

/-- Witness of C10 at input `[0,0,0]` of shape `3`, target `[1,0,0]` of shape `1 x 3` and a
two-element tensor to write. -/
theorem C10_result_shapes_witness :
    exInput.size ≠ exTargetRow.size
    ∧ (DistKLDivCriterion_updateOutput exEnv exLog exInput exTargetRow exOutput true
        false).error = none
    ∧ (DistKLDivCriterion_updateOutput exEnv exLog exInput exTargetRow exOutput true
        false).tensor.size = exInput.size
    ∧ (DistKLDivCriterion_updateOutput exEnv exLog exInput exTargetRow exOutput true
        false).tensor.size ≠ exTargetRow.size
    ∧ (DistKLDivCriterion_updateOutput exEnv exLog exInput exTargetRow exOutput true
        true).error = none
    ∧ (DistKLDivCriterion_updateOutput exEnv exLog exInput exTargetRow exOutput true
        true).tensor.size = [1]
    ∧ (DistKLDivCriterion_updateGradInput exEnv exInput exTargetRow exGradOutput1 exOutput true
        true).error = none
    ∧ (DistKLDivCriterion_updateGradInput exEnv exInput exTargetRow exGradOutput1 exOutput true
        true).tensor.size = exInput.size :=
  have hu : (DistKLDivCriterion_updateOutput exEnv exLog exInput exTargetRow exOutput true
      false).error = none := by
    rw [updateOutput_unreduced exEnv exLog exInput exTargetRow exOutput true rfl]
  have hr : (DistKLDivCriterion_updateOutput exEnv exLog exInput exTargetRow exOutput true
      true).error = none := by
    rw [updateOutput_reduced exEnv exLog exInput exTargetRow exOutput true rfl]
  have hb : (DistKLDivCriterion_updateGradInput exEnv exInput exTargetRow exGradOutput1
      exOutput true true).error = none := by
    rw [updateGradInput_reduced exEnv exInput exTargetRow exGradOutput1 exOutput true rfl rfl]
  ⟨by decide, hu,
    ((C10_result_shapes exEnv exLog exInput exTargetRow exOutput exGradOutput1 exOutput true
      true).1 hu).1,
    ((C10_result_shapes exEnv exLog exInput exTargetRow exOutput exGradOutput1 exOutput true
      true).1 hu).2 (by decide),
    hr,
    (C10_result_shapes exEnv exLog exInput exTargetRow exOutput exGradOutput1 exOutput true
      true).2.1 hr,
    hb,
    (C10_result_shapes exEnv exLog exInput exTargetRow exOutput exGradOutput1 exOutput true
      true).2.2 hb⟩

/-- C11. Sequential and parallel paths agree: for every element count (below or above the
overhead threshold of 10) and every number of workers, the fan-out of a ternary map over
contiguous chunks, each mapped independently, writes the same tensors as the sequential
walk, and so does the size-gated traversal; hence the unreduced forward map, the unreduced
backward map and the reduced backward map of the kernels give the same result whatever the
build, the in-parallel-region flag and the worker pool are. -/
theorem C11_sequential_parallel_agree (env env2 : OMPEnv) (log : real → real)
    (input target output gradOutput gradInput T1 T2 T3 : THTensor real)
    (CODE : real → real → real → real × real × real)
    (sizeAverage reduce : Bool) (SIZE workers : Nat) :
    apply3Workers CODE SIZE (workers + 1) (T1, T2, T3) = apply3Range CODE 0 SIZE (T1, T2, T3)
    ∧ TH_TENSOR_APPLY3_OMP env (THTensor_nElement T1) T1 T2 T3 CODE THNN_OMP_OVERHEAD_THRESHOLD
        = TH_TENSOR_APPLY3 T1 T2 T3 CODE
    ∧ DistKLDivCriterion_updateOutput env log input target output sizeAverage reduce
        = DistKLDivCriterion_updateOutput env2 log input target output sizeAverage reduce
    ∧ DistKLDivCriterion_updateGradInput env input target gradOutput gradInput sizeAverage
          reduce
        = DistKLDivCriterion_updateGradInput env2 input target gradOutput gradInput sizeAverage
          reduce := by
  refine ⟨?_, TH_TENSOR_APPLY3_OMP_eq env T1 T2 T3 CODE _, ?_, ?_⟩
  · rw [apply3Workers_eq_map3Range CODE SIZE (workers + 1) _ (Nat.succ_pos workers),
      apply3Range_eq_map3Range, Nat.zero_add]
  · by_cases h : THTensor_nElement input = THTensor_nElement target
    · cases reduce
      · rw [updateOutput_unreduced env log input target output sizeAverage h,
          updateOutput_unreduced env2 log input target output sizeAverage h]
      · rw [updateOutput_reduced env log input target output sizeAverage h,
          updateOutput_reduced env2 log input target output sizeAverage h]
    · rw [updateOutput_mismatch env log input target output sizeAverage reduce h,
        updateOutput_mismatch env2 log input target output sizeAverage reduce h]
  · by_cases h : THTensor_nElement input = THTensor_nElement target
    · cases reduce
      · by_cases hg : THTensor_nElement input = THTensor_nElement gradOutput
        · rw [updateGradInput_unreduced env input target gradOutput gradInput sizeAverage h hg,
            updateGradInput_unreduced env2 input target gradOutput gradInput sizeAverage h hg]
        · rw [updateGradInput_unreduced_mismatch env input target gradOutput gradInput
              sizeAverage h hg,
            updateGradInput_unreduced_mismatch env2 input target gradOutput gradInput
              sizeAverage h hg]
      · by_cases hg : THTensor_nElement gradOutput = 1
        · rw [updateGradInput_reduced env input target gradOutput gradInput sizeAverage h hg,
            updateGradInput_reduced env2 input target gradOutput gradInput sizeAverage h hg]
        · rw [updateGradInput_reduced_dim env input target gradOutput gradInput sizeAverage h
              hg,
            updateGradInput_reduced_dim env2 input target gradOutput gradInput sizeAverage h
              hg]
    · rw [updateGradInput_mismatch env input target gradOutput gradInput sizeAverage reduce h,
        updateGradInput_mismatch env2 input target gradOutput gradInput sizeAverage reduce h]

/-- Witness of C11 above the threshold: twelve elements and five workers, so that the
size-gated traversal does fan out, against the build without OpenMP. -/
theorem C11_sequential_parallel_agree_witness :
    ¬ (THTensor_nElement exInput12 < THNN_OMP_OVERHEAD_THRESHOLD
        ∨ exEnv5.omp_num_threads = 0)
    ∧ exEnv5.openmp = true ∧ exEnv5.omp_in_parallel = false ∧ exEnvSerial.openmp = false
    ∧ DistKLDivCriterion_updateOutput exEnv5 exLog exInput12 exTarget12 exOutput true false
        = DistKLDivCriterion_updateOutput exEnvSerial exLog exInput12 exTarget12 exOutput true
          false
    ∧ DistKLDivCriterion_updateGradInput exEnv5 exInput12 exTarget12 exGradOutput1 exOutput
          true true
        = DistKLDivCriterion_updateGradInput exEnvSerial exInput12 exTarget12 exGradOutput1
          exOutput true true :=
  ⟨by decide, rfl, rfl, rfl,
    (C11_sequential_parallel_agree exEnv5 exEnvSerial exLog exInput12 exTarget12 exOutput
      exGradOutput1 exOutput exInput12 exTarget12 exOutput (fun a b c => (a, b, c)) true false
      12 4).2.2.1,
    (C11_sequential_parallel_agree exEnv5 exEnvSerial exLog exInput12 exTarget12 exOutput
      exGradOutput1 exOutput exInput12 exTarget12 exOutput (fun a b c => (a, b, c)) true true
      12 4).2.2.2⟩

/-- C12. Worked examples, over the reals with the natural logarithm: with input `[0,0,0]`
and target `[1,0,0]` the unreduced forward call yields output `[0,0,0]`; with the same input
and target `[e,0,0]` (`e` Euler's number) it yields `[e,0,0]`; and with the same input,
target `[e,0,0]`, `reduce = true` and `sizeAverage = true` it yields the scalar `e / 3`. -/
theorem C12_worked_examples (env : OMPEnv) (output : THTensor ℝ) (sizeAverage : Bool) :
    ((DistKLDivCriterion_updateOutput env Real.log exInputR exTargetR output sizeAverage
        false).error = none
      ∧ (DistKLDivCriterion_updateOutput env Real.log exInputR exTargetR output sizeAverage
        false).tensor.size = [3]
      ∧ (DistKLDivCriterion_updateOutput env Real.log exInputR exTargetR output sizeAverage
        false).tensor.data 0 = 0
      ∧ (DistKLDivCriterion_updateOutput env Real.log exInputR exTargetR output sizeAverage
        false).tensor.data 1 = 0
      ∧ (DistKLDivCriterion_updateOutput env Real.log exInputR exTargetR output sizeAverage
        false).tensor.data 2 = 0)
    ∧ ((DistKLDivCriterion_updateOutput env Real.log exInputR
        ⟨[3], fun i => if i = 0 then Real.exp 1 else 0⟩ output sizeAverage false).error = none
      ∧ (DistKLDivCriterion_updateOutput env Real.log exInputR
        ⟨[3], fun i => if i = 0 then Real.exp 1 else 0⟩ output sizeAverage false).tensor.size
          = [3]
      ∧ (DistKLDivCriterion_updateOutput env Real.log exInputR
        ⟨[3], fun i => if i = 0 then Real.exp 1 else 0⟩ output sizeAverage false).tensor.data 0
          = Real.exp 1
      ∧ (DistKLDivCriterion_updateOutput env Real.log exInputR
        ⟨[3], fun i => if i = 0 then Real.exp 1 else 0⟩ output sizeAverage false).tensor.data 1
          = 0
      ∧ (DistKLDivCriterion_updateOutput env Real.log exInputR
        ⟨[3], fun i => if i = 0 then Real.exp 1 else 0⟩ output sizeAverage false).tensor.data 2
          = 0)
    ∧ ((DistKLDivCriterion_updateOutput env Real.log exInputR
        ⟨[3], fun i => if i = 0 then Real.exp 1 else 0⟩ output true true).error = none
      ∧ (DistKLDivCriterion_updateOutput env Real.log exInputR
        ⟨[3], fun i => if i = 0 then Real.exp 1 else 0⟩ output true true).tensor.size = [1]
      ∧ (DistKLDivCriterion_updateOutput env Real.log exInputR
        ⟨[3], fun i => if i = 0 then Real.exp 1 else 0⟩ output true true).tensor.data 0
          = Real.exp 1 / 3) := by
  have hn : THTensor_nElement exInputR = 3 := by decide
  have he : (0 : ℝ) < Real.exp 1 := Real.exp_pos 1
  rw [updateOutput_unreduced env Real.log exInputR exTargetR output sizeAverage rfl,
    updateOutput_unreduced env Real.log exInputR ⟨[3], fun i => if i = 0 then Real.exp 1 else 0⟩
      output sizeAverage rfl,
    updateOutput_reduced env Real.log exInputR ⟨[3], fun i => if i = 0 then Real.exp 1 else 0⟩
      output true rfl]
  refine ⟨⟨rfl, rfl, ?_, ?_, ?_⟩, ⟨rfl, rfl, ?_, ?_, ?_⟩, rfl, rfl, ?_⟩
  · simp only [hn]
    simp [exTargetR, exInputR]
  · simp [hn, exTargetR]
  · simp [hn, exTargetR]
  · simp only [hn]
    simp [exInputR, he]
  · simp [hn]
  · simp [hn]
  · simp only [hn]
    simp [Finset.sum_range_succ, exInputR, he]

/-- C14. Backward does not read input values: for two inputs of the same shape (whatever
their element values) and the same target, gradOutput, sizeAverage and reduce, the two
calls of the backward kernel end alike: the same error or success, and the same gradInput.
Only the shape, and through it the element count, of `input` is used. -/
theorem C14_backward_ignores_input_values (env : OMPEnv)
    (input input2 target gradOutput gradInput : THTensor real) (sizeAverage reduce : Bool)
    (hs : input.size = input2.size) :
    DistKLDivCriterion_updateGradInput env input target gradOutput gradInput sizeAverage reduce
      = DistKLDivCriterion_updateGradInput env input2 target gradOutput gradInput sizeAverage
        reduce := by
  have hn : THTensor_nElement input = THTensor_nElement input2 := by
    simp only [THTensor_nElement, hs]
  by_cases h : THTensor_nElement input = THTensor_nElement target
  · have h2 : THTensor_nElement input2 = THTensor_nElement target := hn ▸ h
    cases reduce
    · by_cases hg : THTensor_nElement input = THTensor_nElement gradOutput
      · have hg2 : THTensor_nElement input2 = THTensor_nElement gradOutput := hn ▸ hg
        rw [updateGradInput_unreduced env input target gradOutput gradInput sizeAverage h hg,
          updateGradInput_unreduced env input2 target gradOutput gradInput sizeAverage h2 hg2,
          hs, hn]
      · have hg2 : THTensor_nElement input2 ≠ THTensor_nElement gradOutput := hn ▸ hg
        rw [updateGradInput_unreduced_mismatch env input target gradOutput gradInput
            sizeAverage h hg,
          updateGradInput_unreduced_mismatch env input2 target gradOutput gradInput
            sizeAverage h2 hg2]
        simp only [THTensor_resizeAs, hs]
    · by_cases hg : THTensor_nElement gradOutput = 1
      · rw [updateGradInput_reduced env input target gradOutput gradInput sizeAverage h hg,
          updateGradInput_reduced env input2 target gradOutput gradInput sizeAverage h2 hg,
          hs, hn]
      · rw [updateGradInput_reduced_dim env input target gradOutput gradInput sizeAverage h hg,
          updateGradInput_reduced_dim env input2 target gradOutput gradInput sizeAverage h2 hg]
        simp only [THTensor_resizeAs, hs]
  · have h2 : THTensor_nElement input2 ≠ THTensor_nElement target := hn ▸ h
    rw [updateGradInput_mismatch env input target gradOutput gradInput sizeAverage reduce h,
      updateGradInput_mismatch env input2 target gradOutput gradInput sizeAverage reduce h2]

/-- Witness of C14 at the inputs `[0,0,0]` and `[0,1,2]`, target `[1,0,0]`, gradOutput
`[2]`, reduced with size averaging. -/
theorem C14_backward_ignores_input_values_witness :
    exInput.size = exInputUp.size
    ∧ exInput.data 1 ≠ exInputUp.data 1
    ∧ DistKLDivCriterion_updateGradInput exEnv exInput exTarget exGradOutput1 exOutput true
          true
        = DistKLDivCriterion_updateGradInput exEnv exInputUp exTarget exGradOutput1 exOutput
          true true :=
  ⟨rfl, by simp [exInput, exInputUp],
    C14_backward_ignores_input_values exEnv exInput exInputUp exTarget exGradOutput1 exOutput
      true true rfl⟩

set_option maxRecDepth 100000 in
/-- C15, counterexample. In `double` arithmetic, for the unreduced call on one element with
target `[3]`: the gradInput for `[2^53] + [1]` is `-3 * 2^53` while the sum of the
gradInputs for `[2^53]` and `[1]` is `-(3 * 2^53 + 4)`; the gradInput for `(1/3) * [7]` is
one unit in the last place away from `1/3` times the gradInput for `[7]`; and with target
`[+inf]` a zero gradOutput gives the gradInput `-inf * 0`, a NaN, not zero. -/
theorem C15_counterexample :
    THTensor_nElement dblIn1 = THTensor_nElement dblT3
    ∧ THTensor_nElement dblIn1 = THTensor_nElement dblTinf
    ∧ THTensor_nElement dblIn1 = THTensor_nElement dblG1
    ∧ THTensor_nElement dblIn1 = THTensor_nElement dblSeven
    ∧ dblG1.size = dblG2.size
    ∧ (DistKLDivCriterion_updateGradInput exEnv dblIn1 dblT3
        ⟨dblG1.size, fun j => dblG1.data j + dblG2.data j⟩ dblOut true false).tensor.data 0
        ≠ (DistKLDivCriterion_updateGradInput exEnv dblIn1 dblT3 dblG1 dblOut true
            false).tensor.data 0
          + (DistKLDivCriterion_updateGradInput exEnv dblIn1 dblT3 dblG2 dblOut true
            false).tensor.data 0
    ∧ (DistKLDivCriterion_updateGradInput exEnv dblIn1 dblT3
        ⟨dblSeven.size, fun j => 1 / Double.ofNat 3 * dblSeven.data j⟩ dblOut true
        false).tensor.data 0
        ≠ 1 / Double.ofNat 3
          * (DistKLDivCriterion_updateGradInput exEnv dblIn1 dblT3 dblSeven dblOut true
              false).tensor.data 0
    ∧ (DistKLDivCriterion_updateGradInput exEnv dblIn1 dblTinf
        ⟨dblG1.size, fun _ => 0⟩ dblOut true false).tensor.data 0 = Double.nan
    ∧ (DistKLDivCriterion_updateGradInput exEnv dblIn1 dblTinf
        ⟨dblG1.size, fun _ => 0⟩ dblOut true false).tensor.data 0 ≠ 0 := by
  refine ⟨rfl, rfl, rfl, rfl, rfl, ?_, ?_, ?_, ?_⟩ <;> decide

/-- C15, amended. In exact arithmetic (the element type a linearly ordered field, such as
the real numbers, so that no operation rounds and every value is finite): for fixed input,
target, sizeAverage and reduce, admissible gradOutput tensors `g1`, `g2` of the same shape
and a scalar `c`, the calls on `g1 + g2` and on `c * g1` succeed and, at every index
`i < n`, the gradInput for `g1 + g2` is the sum of the gradInputs for `g1` and for `g2`, the
gradInput for `c * g1` is `c` times the gradInput for `g1`, and the gradInput for a zero
gradOutput is zero. -/
theorem C15_backward_linear (env : OMPEnv)
    (input target g1 g2 gradInput : THTensor real) (sizeAverage reduce : Bool) (c : real)
    (h : THTensor_nElement input = THTensor_nElement target)
    (hadm : (reduce = false ∧ THTensor_nElement input = THTensor_nElement g1)
      ∨ (reduce = true ∧ THTensor_nElement g1 = 1))
    (hshape : g1.size = g2.size) :
    (DistKLDivCriterion_updateGradInput env input target
        ⟨g1.size, fun j => g1.data j + g2.data j⟩ gradInput sizeAverage reduce).error = none
    ∧ (DistKLDivCriterion_updateGradInput env input target
        ⟨g1.size, fun j => c * g1.data j⟩ gradInput sizeAverage reduce).error = none
    ∧ ∀ i, i < THTensor_nElement input →
      (DistKLDivCriterion_updateGradInput env input target
          ⟨g1.size, fun j => g1.data j + g2.data j⟩ gradInput sizeAverage reduce).tensor.data i
        = (DistKLDivCriterion_updateGradInput env input target g1 gradInput sizeAverage
            reduce).tensor.data i
          + (DistKLDivCriterion_updateGradInput env input target g2 gradInput sizeAverage
            reduce).tensor.data i
      ∧ (DistKLDivCriterion_updateGradInput env input target
          ⟨g1.size, fun j => c * g1.data j⟩ gradInput sizeAverage reduce).tensor.data i
        = c * (DistKLDivCriterion_updateGradInput env input target g1 gradInput sizeAverage
            reduce).tensor.data i
      ∧ (DistKLDivCriterion_updateGradInput env input target
          ⟨g1.size, fun _ => 0⟩ gradInput sizeAverage reduce).tensor.data i = 0 := by
  have hn2 : THTensor_nElement g2 = THTensor_nElement g1 := by
    simp only [THTensor_nElement, hshape]
  rcases hadm with ⟨hr, hg⟩ | ⟨hr, hg⟩
  · subst hr
    rw [updateGradInput_unreduced env input target ⟨g1.size, fun j => g1.data j + g2.data j⟩
        gradInput sizeAverage h hg,
      updateGradInput_unreduced env input target ⟨g1.size, fun j => c * g1.data j⟩
        gradInput sizeAverage h hg,
      updateGradInput_unreduced env input target ⟨g1.size, fun _ => 0⟩
        gradInput sizeAverage h hg,
      updateGradInput_unreduced env input target g1 gradInput sizeAverage h hg,
      updateGradInput_unreduced env input target g2 gradInput sizeAverage h (hg.trans hn2.symm)]
    refine ⟨rfl, rfl, fun i hi => ?_⟩
    simp only [if_pos hi]
    by_cases ht : target.data i > 0
    · simp only [if_pos ht]
      refine ⟨by ring, by ring, by ring⟩
    · simp only [if_neg ht, add_zero, mul_zero, and_self]
  · subst hr
    rw [updateGradInput_reduced env input target ⟨g1.size, fun j => g1.data j + g2.data j⟩
        gradInput sizeAverage h hg,
      updateGradInput_reduced env input target ⟨g1.size, fun j => c * g1.data j⟩
        gradInput sizeAverage h hg,
      updateGradInput_reduced env input target ⟨g1.size, fun _ => 0⟩
        gradInput sizeAverage h hg,
      updateGradInput_reduced env input target g1 gradInput sizeAverage h hg,
      updateGradInput_reduced env input target g2 gradInput sizeAverage h (hn2.trans hg)]
    refine ⟨rfl, rfl, fun i hi => ?_⟩
    simp only [if_pos hi]
    by_cases ht : target.data i > 0
    · simp only [if_pos ht]
      refine ⟨by ring, by ring, by ring⟩
    · simp only [if_neg ht, add_zero, mul_zero, and_self]

/-- Witness of the amended C15 over the rationals, at input `[0,0,0]`, target `[1,0,0]`,
the unreduced call, the upstream gradients `[1,1,1]` and `[2,2,2]` and the scalar `3`, read
at index 0. -/
theorem C15_backward_linear_witness :
    THTensor_nElement exInput = THTensor_nElement exTarget
    ∧ ((false = false ∧ THTensor_nElement exInput = THTensor_nElement exGradOutput3)
      ∨ (false = true ∧ THTensor_nElement exGradOutput3 = 1))
    ∧ exGradOutput3.size = exScaled.size
    ∧ ((DistKLDivCriterion_updateGradInput exEnv exInput exTarget
          ⟨exGradOutput3.size, fun j => exGradOutput3.data j + exScaled.data j⟩ exOutput true
          false).tensor.data 0
        = (DistKLDivCriterion_updateGradInput exEnv exInput exTarget exGradOutput3 exOutput
            true false).tensor.data 0
          + (DistKLDivCriterion_updateGradInput exEnv exInput exTarget exScaled exOutput true
            false).tensor.data 0
      ∧ (DistKLDivCriterion_updateGradInput exEnv exInput exTarget
          ⟨exGradOutput3.size, fun j => 3 * exGradOutput3.data j⟩ exOutput true
          false).tensor.data 0
        = 3 * (DistKLDivCriterion_updateGradInput exEnv exInput exTarget exGradOutput3 exOutput
            true false).tensor.data 0
      ∧ (DistKLDivCriterion_updateGradInput exEnv exInput exTarget
          ⟨exGradOutput3.size, fun _ => 0⟩ exOutput true false).tensor.data 0 = 0) :=
  ⟨rfl, Or.inl ⟨rfl, rfl⟩, rfl,
    (C15_backward_linear exEnv exInput exTarget exGradOutput3 exScaled exOutput true false 3
      rfl (Or.inl ⟨rfl, rfl⟩) rfl).2.2 0 (by decide)⟩

set_option exponentiation.threshold 2048 in
set_option maxRecDepth 100000 in
/-- C16, counterexample. In `double` arithmetic the outputs on `b` are not always at most
the outputs on `a` for `a ≤ b`.  With an empty input and target and size averaging both
calls store `0 / 0`, a NaN, and a NaN is not at most a NaN.  With target `[4, 4]` and the
finite inputs `a = [-M, M] ≤ b = [M, M]` (`M` the largest finite `double`), without size
averaging, the terms overflow: the call on `a` stores `inf + (-inf)`, a NaN, the call on `b`
stores `-inf`, and `-inf` is not at most a NaN.  With target `[+inf]` and `a = b = [+inf]`
the unreduced output element is `inf * (inf - inf)`, a NaN, in both calls. -/
theorem C16_counterexample :
    (THTensor_nElement dblEmpty = THTensor_nElement dblEmpty
      ∧ (∀ i, i < THTensor_nElement dblEmpty → dblEmpty.data i ≤ dblEmpty.data i)
      ∧ (DistKLDivCriterion_updateOutput exEnv Double.log dblEmpty dblEmpty dblOut true
          true).tensor.data 0 = Double.nan
      ∧ ¬ ((DistKLDivCriterion_updateOutput exEnv Double.log dblEmpty dblEmpty dblOut true
            true).tensor.data 0
          ≤ (DistKLDivCriterion_updateOutput exEnv Double.log dblEmpty dblEmpty dblOut true
            true).tensor.data 0))
    ∧ (THTensor_nElement dblLow = THTensor_nElement dblFours
      ∧ THTensor_nElement dblHigh = THTensor_nElement dblFours
      ∧ (∀ i, i < THTensor_nElement dblFours → dblLow.data i ≤ dblHigh.data i)
      ∧ (DistKLDivCriterion_updateOutput exEnv Double.log dblLow dblFours dblOut false
          true).tensor.data 0 = Double.nan
      ∧ (DistKLDivCriterion_updateOutput exEnv Double.log dblHigh dblFours dblOut false
          true).tensor.data 0 = Double.inf true
      ∧ ¬ ((DistKLDivCriterion_updateOutput exEnv Double.log dblHigh dblFours dblOut false
            true).tensor.data 0
          ≤ (DistKLDivCriterion_updateOutput exEnv Double.log dblLow dblFours dblOut false
            true).tensor.data 0))
    ∧ (THTensor_nElement dblTinf = THTensor_nElement dblTinf
      ∧ (∀ i, i < THTensor_nElement dblTinf → dblTinf.data i ≤ dblTinf.data i)
      ∧ (DistKLDivCriterion_updateOutput exEnv Double.log dblTinf dblTinf dblOut false
          false).tensor.data 0 = Double.nan
      ∧ ¬ ((DistKLDivCriterion_updateOutput exEnv Double.log dblTinf dblTinf dblOut false
            false).tensor.data 0
          ≤ (DistKLDivCriterion_updateOutput exEnv Double.log dblTinf dblTinf dblOut false
            false).tensor.data 0)) := by
  have hvac : ∀ i, i < THTensor_nElement dblEmpty → dblEmpty.data i ≤ dblEmpty.data i := by
    intro i hi
    exact absurd hi (Nat.not_lt_zero i)
  have hle : ∀ i, i < THTensor_nElement dblFours → dblLow.data i ≤ dblHigh.data i := by
    intro i hi
    have h2 : i < 2 := hi
    interval_cases i <;> decide
  have hinf : ∀ i, i < THTensor_nElement dblTinf → dblTinf.data i ≤ dblTinf.data i := by
    intro i _
    exact (by decide : Double.inf false ≤ Double.inf false)
  refine ⟨⟨rfl, hvac, ?_, ?_⟩, ⟨rfl, rfl, hle, ?_, ?_, ?_⟩, rfl, hinf, ?_, ?_⟩ <;> decide

/-- C16, amended. In exact arithmetic (the element type a linearly ordered field, such as
the real numbers, so that no operation rounds or overflows), and for a non-empty input when
`sizeAverage` is true: for a fixed target and two inputs `a`, `b` of the element count of
the target, if `a[i] ≤ b[i]` at every index then every unreduced output element on `b` is at
most the one on `a`, and the reduced output on `b` is at most the reduced output on `a`, for
either value of `sizeAverage`.  And in every arithmetic of the element type: if two inputs
differ only at indices where the target is not positive, the unreduced and the reduced
outputs are the same. -/
theorem C16_forward_antitone {realAny : Type} [Zero realAny] [Add realAny] [Sub realAny]
    [Mul realAny] [Div realAny] [NatCast realAny] [LT realAny]
    [DecidableRel (fun x y : realAny => x < y)]
    (env : OMPEnv) (log : real → real) (a b target output : THTensor real)
    (logAny : realAny → realAny) (aAny bAny targetAny outputAny : THTensor realAny)
    (sizeAverage : Bool)
    (ha : THTensor_nElement a = THTensor_nElement target)
    (hb : THTensor_nElement b = THTensor_nElement target)
    (hn : sizeAverage = true → 0 < THTensor_nElement target)
    (haAny : THTensor_nElement aAny = THTensor_nElement targetAny)
    (hbAny : THTensor_nElement bAny = THTensor_nElement targetAny) :
    ((∀ i, i < THTensor_nElement target → a.data i ≤ b.data i) →
      (∀ i, i < THTensor_nElement target →
        (DistKLDivCriterion_updateOutput env log b target output sizeAverage false).tensor.data i
          ≤ (DistKLDivCriterion_updateOutput env log a target output sizeAverage
              false).tensor.data i)
      ∧ (DistKLDivCriterion_updateOutput env log b target output sizeAverage true).tensor.data 0
          ≤ (DistKLDivCriterion_updateOutput env log a target output sizeAverage
              true).tensor.data 0)
    ∧ ((∀ i, i < THTensor_nElement targetAny → targetAny.data i > 0 →
          aAny.data i = bAny.data i) →
      (∀ i, i < THTensor_nElement targetAny →
        (DistKLDivCriterion_updateOutput env logAny bAny targetAny outputAny sizeAverage
            false).tensor.data i
          = (DistKLDivCriterion_updateOutput env logAny aAny targetAny outputAny sizeAverage
              false).tensor.data i)
      ∧ (DistKLDivCriterion_updateOutput env logAny bAny targetAny outputAny sizeAverage
            true).tensor.data 0
          = (DistKLDivCriterion_updateOutput env logAny aAny targetAny outputAny sizeAverage
              true).tensor.data 0) := by
  constructor
  · rw [updateOutput_unreduced env log a target output sizeAverage ha,
      updateOutput_unreduced env log b target output sizeAverage hb,
      updateOutput_reduced env log a target output sizeAverage ha,
      updateOutput_reduced env log b target output sizeAverage hb]
    simp only [ha, hb, Function.update_same]
    intro hle
    have hterm : ∀ i, i < THTensor_nElement target →
        (if target.data i > 0 then target.data i * (log (target.data i) - b.data i) else 0)
          ≤ (if target.data i > 0 then target.data i * (log (target.data i) - a.data i)
              else 0) := by
      intro i hi
      by_cases ht : target.data i > 0
      · simp only [if_pos ht]
        exact mul_le_mul_of_nonneg_left (sub_le_sub_left (hle i hi) _) (le_of_lt ht)
      · simp only [if_neg ht, le_refl]
    have hsum := Finset.sum_le_sum (s := Finset.range (THTensor_nElement target))
      (fun i hi => hterm i (Finset.mem_range.mp hi))
    refine ⟨fun i hi => ?_, ?_⟩
    · simp only [if_pos hi]
      exact hterm i hi
    · cases sizeAverage
      · simpa using hsum
      · simp only [if_true]
        have hpos : (0 : real) < (THTensor_nElement target : real) :=
          Nat.cast_pos.mpr (hn rfl)
        exact (div_le_div_iff_of_pos_right hpos).mpr hsum
  · rw [updateOutput_unreduced env logAny aAny targetAny outputAny sizeAverage haAny,
      updateOutput_unreduced env logAny bAny targetAny outputAny sizeAverage hbAny,
      updateOutput_reduced_fold env logAny aAny targetAny outputAny sizeAverage haAny,
      updateOutput_reduced_fold env logAny bAny targetAny outputAny sizeAverage hbAny]
    simp only [haAny, hbAny, Function.update_same]
    intro heq
    have hterm : ∀ i, i < THTensor_nElement targetAny →
        (if targetAny.data i > 0 then
            targetAny.data i * (logAny (targetAny.data i) - bAny.data i) else 0)
          = (if targetAny.data i > 0 then
              targetAny.data i * (logAny (targetAny.data i) - aAny.data i) else 0) := by
      intro i hi
      by_cases ht : targetAny.data i > 0
      · simp only [if_pos ht, heq i hi ht]
      · simp only [if_neg ht]
    have hfold := foldl_add_congr
      (fun i => if targetAny.data i > 0 then
        targetAny.data i * (logAny (targetAny.data i) - bAny.data i) else 0)
      (fun i => if targetAny.data i > 0 then
        targetAny.data i * (logAny (targetAny.data i) - aAny.data i) else 0)
      0 (THTensor_nElement targetAny) hterm
    refine ⟨fun i hi => ?_, ?_⟩
    · simp only [if_pos hi]
      exact hterm i hi
    · rw [hfold]

set_option exponentiation.threshold 2048 in
set_option maxRecDepth 100000 in
/-- Witness of the amended C16: over the rationals, target `[1,0,0]` and the inputs
`a = [0,0,0] ≤ b = [0,1,2]` with size averaging; in `double` arithmetic, target `[4,0]` and
the inputs `[M, M]` and `[M, -M]`, which differ only where the target is zero. -/
theorem C16_forward_antitone_witness :
    THTensor_nElement exInput = THTensor_nElement exTarget
    ∧ THTensor_nElement exInputUp = THTensor_nElement exTarget
    ∧ (true = true → 0 < THTensor_nElement exTarget)
    ∧ THTensor_nElement dblHigh = THTensor_nElement dblFourZero
    ∧ THTensor_nElement dblHighLow = THTensor_nElement dblFourZero
    ∧ (∀ i, i < THTensor_nElement exTarget → exInput.data i ≤ exInputUp.data i)
    ∧ (∀ i, i < THTensor_nElement dblFourZero → dblFourZero.data i > 0 →
        dblHigh.data i = dblHighLow.data i)
    ∧ dblHigh.data 1 ≠ dblHighLow.data 1
    ∧ (DistKLDivCriterion_updateOutput exEnv exLog exInputUp exTarget exOutput true
        true).tensor.data 0
        ≤ (DistKLDivCriterion_updateOutput exEnv exLog exInput exTarget exOutput true
            true).tensor.data 0
    ∧ (DistKLDivCriterion_updateOutput exEnv Double.log dblHighLow dblFourZero dblOut true
        true).tensor.data 0
        = (DistKLDivCriterion_updateOutput exEnv Double.log dblHigh dblFourZero dblOut true
            true).tensor.data 0 :=
  have hle : ∀ i, i < THTensor_nElement exTarget → exInput.data i ≤ exInputUp.data i := by
    intro i _
    simp [exInput, exInputUp]
  have heq : ∀ i, i < THTensor_nElement dblFourZero → dblFourZero.data i > 0 →
      dblHigh.data i = dblHighLow.data i := by
    intro i hi
    have h2 : i < 2 := hi
    interval_cases i <;> decide
  ⟨rfl, rfl, fun _ => by decide, rfl, rfl, hle, heq, by decide,
    ((C16_forward_antitone exEnv exLog exInput exInputUp exTarget exOutput Double.log dblHigh
      dblHighLow dblFourZero dblOut true rfl rfl (fun _ => by decide) rfl rfl).1 hle).2,
    ((C16_forward_antitone exEnv exLog exInput exInputUp exTarget exOutput Double.log dblHigh
      dblHighLow dblFourZero dblOut true rfl rfl (fun _ => by decide) rfl rfl).2 heq).2⟩

end Claims

section ClaimsAnyArithmetic

variable {real : Type} [Zero real] [One real] [Add real] [Sub real] [Neg real] [Mul real]
  [Div real] [NatCast real] [LT real] [DecidableRel (fun a b : real => a < b)]

end ClaimsAnyArithmetic

end THNN
